import Mathlib

/-!
# Verification of the Comsof automated-checking rule engine

Shallow embedding of the validation rule engine of the repository
(`Backend/automation_for_app.py` for the ten checks and
`Backend/api/validate.py` for the engine loop), together with theorems
settling the frozen claims about it.

Modelling conventions:
* A pandas cell value is a `Value`: missing (`NaN`/`None`), a number
  (modelled as `Rat`, covering the int64/float64 columns), or a string.
* A layer (`gpd.read_file` result) is a list of named columns plus a list
  of rows; each row is an association list of attribute values plus an
  optional geometry (`none` = null geometry).
* A workspace is a path (used only in message text) plus a finite map from
  file name to layer; `Workspace.load` is `os.path.isfile` + `gpd.read_file`.
* Geometries are points and axis-aligned boxes with rational coordinates;
  `Geom.intersects` is the (symmetric) geometric intersection predicate
  standing in for shapely's `intersects`.
* Python exceptions inside a check are modelled by explicit branches that
  jump to the check's `except` clause (every check wraps its whole body in
  `try/except`); the engine-level exception path is modelled with `Except`.
* Each check is translated as a `...Core` function producing the status and
  the list of message lines (the Python `output` list); the exported check
  joins the lines with `"\n"` exactly as the Python `"\n".join(output)`.
* Pandas `==` comparisons never match a missing value (`Value.eqNum`,
  `Value.eqStrLit`), while `duplicated`, `isin` and `value_counts` grouping
  use structural equality under which `NaN` matches `NaN`, as pandas does.
-/

/-- A pandas cell value: missing (NaN/None), numeric, or string. -/
inductive Value where
  | null : Value
  | num (q : Rat) : Value
  | str (s : String) : Value
deriving DecidableEq, Repr, Inhabited

/-- `pd.isna` on a single value. -/
def Value.isna : Value → Bool
  | .null => true
  | _ => false

/-- `str(v)` / `.astype(str)` on a single value (numeric rendering
abbreviated; `NaN` renders as `"nan"` as pandas `astype(str)` does). -/
def Value.strOf : Value → String
  | .null => "nan"
  | .num q => if q.den = 1 then toString q.num else toString q
  | .str s => s

/-- Pandas `series == c` comparison against a numeric literal: a missing
value or a string never equals a number. -/
def Value.eqNum (v : Value) (q : Rat) : Bool :=
  match v with
  | .num a => decide (a = q)
  | _ => false

/-- Pandas `series == c` comparison against a string literal: a missing
value or a number never equals a string. -/
def Value.eqStrLit (v : Value) (s : String) : Bool :=
  match v with
  | .str a => decide (a = s)
  | _ => false

/-- Number of occurrences of a value in a column, by structural equality
(as pandas `duplicated`/`value_counts`, under which NaN matches NaN). -/
def countVal (vs : List Value) (v : Value) : Nat :=
  vs.countP (fun x => decide (x = v))

/-- A geometry: a point or an axis-aligned box (the polygon shape used to
model cluster features), with rational coordinates. -/
inductive Geom where
  | pt (x y : Rat) : Geom
  | box (x1 y1 x2 y2 : Rat) : Geom
deriving DecidableEq, Repr, Inhabited

/-- Geometric intersection of two (closed) shapes, standing in for
shapely's `intersects`; symmetric by `Geom.intersects_comm` below. -/
def Geom.intersects : Geom → Geom → Bool
  | .pt ax ay, .pt bx b2 => decide (ax = bx ∧ ay = b2)
  | .pt ax ay, .box x1 y1 x2 y2 => decide (x1 ≤ ax ∧ ax ≤ x2 ∧ y1 ≤ ay ∧ ay ≤ y2)
  | .box x1 y1 x2 y2, .pt ax ay => decide (x1 ≤ ax ∧ ax ≤ x2 ∧ y1 ≤ ay ∧ ay ≤ y2)
  | .box ax1 ay1 ax2 ay2, .box bx1 by1 bx2 by2 =>
      decide (max ax1 bx1 ≤ min ax2 bx2 ∧ max ay1 by1 ≤ min ay2 by2)

/-- A feature row: attribute values by column name, plus an optional
geometry (`none` models a null geometry). -/
structure Row where
  attrs : List (String × Value)
  geom : Option Geom := none

/-- Attribute access `row[col]` (a column absent from the row reads as
missing). -/
def Row.get (r : Row) (c : String) : Value :=
  match r.attrs.find? (fun p => p.1 == c) with
  | some p => p.2
  | none => .null

/-- A loaded layer: its column names and its feature rows. -/
structure Layer where
  columns : List String
  rows : List Row

/-- A workspace: a directory path (used only in message text) and the layer
files it contains. -/
structure Workspace where
  path : String
  files : List (String × Layer)

/-- `os.path.isfile` + `gpd.read_file` for a named layer of a workspace. -/
def Workspace.load (w : Workspace) (name : String) : Option Layer :=
  (w.files.find? (fun p => p.1 == name)).map (fun p => p.2)

/-- Substring test on character lists (helper for `strContains`). -/
def hasSubList : List Char → List Char → Bool
  | p, [] => p.isEmpty
  | p, c :: t => p.isPrefixOf (c :: t) || hasSubList p t

/-- `pat in s` on strings (Python `in` / message-containment test). -/
def strContains (s pat : String) : Bool :=
  hasSubList pat.toList s.toList

/-- Joins accumulated output lines, as the Python `"\n".join(output)`. -/
def joinLines (ls : List String) : String :=
  String.intercalate "\n" ls

/-- The column values of one attribute over all rows of a layer (a pandas
column `gdf[col]`). -/
def Layer.col (L : Layer) (c : String) : List Value :=
  L.rows.map (fun r => r.get c)

/-- `series.duplicated(keep=False)` over a column: marks every row whose
value occurs at least twice (pandas treats NaN values as equal here). -/
def duplicatedMask (vs : List Value) : List Bool :=
  vs.map (fun v => decide (2 ≤ countVal vs v))

/-- `series.value_counts()`: distinct non-null values with their
occurrence counts (pandas sorts by descending count; the order is not
relied on here, first-occurrence order is used). -/
def valueCountsPairs (vs : List Value) : List (Value × Nat) :=
  ((vs.filter (fun v => !v.isna)).dedup).map (fun v => (v, countVal vs v))

/-- Simple rendering of a `value_counts` table (stands in for pandas
`DataFrame.to_string`, whose exact layout no claim depends on). -/
def valueCountsRender (vs : List Value) : String :=
  joinLines ((valueCountsPairs vs).map (fun p => p.1.strOf ++ " " ++ toString p.2))

/-- `check_osc_duplicates` (Backend/automation_for_app.py, lines 14-47),
returning the status and the `output` line list. -/
def check_osc_duplicatesCore (w : Workspace) : Option Bool × List String :=
  match w.load "OUT_Closures.shp" with
  | none => (none, ["⛔ Error: OUT_Closures.shp not found in workspace: " ++ w.path])
  | some gdf =>
    if "LINKED_AGG" ∈ gdf.columns then
      let vals := gdf.col "LINKED_AGG"
      let mask := duplicatedMask vals
      if mask.any id then
        (some true,
          ["\n⚠️  We have a problem of duplicated OSCs! ⚠️",
           "Total duplicated entries: " ++ toString (mask.count true),
           "\nDuplicate occurrences:",
           valueCountsRender (vals.filter (fun v => decide (2 ≤ countVal vals v)))])
      else
        (some false, ["\n✅ Everything is okay - no duplicated OSCs found!"])
    else
      (none, ["⛔ Error: \x27LINKED_AGG\x27 column not found in the shapefile"])

/-- `check_osc_duplicates`: status plus joined message. -/
def check_osc_duplicates (w : Workspace) : Option Bool × String :=
  ((check_osc_duplicatesCore w).1, joinLines (check_osc_duplicatesCore w).2)

/-- The 60-dash separator line used between sections of several reports. -/
def dashLine : String := String.mk (List.replicate 60 '-')

/-- Simple rendering of the first-5-problem-rows table of
`check_gistool_id` (stands in for pandas `to_string`; no claim depends on
its layout). The `GISTOOL_ID` cell is quoted when non-null, as in the
source's lambda. -/
def gistoolTableRender (rows : List Row) : String :=
  joinLines ((rows.take 5).map (fun r =>
    (r.get "TYPE").strOf ++ " " ++
      (if (r.get "GISTOOL_ID").isna then "" else "\x27" ++ (r.get "GISTOOL_ID").strOf ++ "\x27") ++
      " " ++ (r.get "ID").strOf))

/-- `check_gistool_id` (Backend/automation_for_app.py, lines 125-164). -/
def check_gistool_idCore (w : Workspace) : Option Bool × List String :=
  match w.load "OUT_UsedSegments.shp" with
  | none => (none, ["⛔ Error: OUT_UsedSegments.shp not found in " ++ w.path])
  | some seg =>
    let missing := (["TYPE", "GISTOOL_ID", "ID"].filter (fun c => !(c ∈ seg.columns : Bool)))
    if missing ≠ [] then
      (none, ["⛔ Error: Missing required columns: " ++ String.intercalate ", " missing])
    else
      let problem := seg.rows.filter (fun r =>
        decide (r.get "TYPE" ∈ [Value.str "AERIAL", Value.str "BURIED"]) &&
        !(r.get "GISTOOL_ID").isna && !((r.get "GISTOOL_ID").eqStrLit ""))
      if !problem.isEmpty then
        (some true,
          ["\n⚠️  Issues found in UsedSegments:",
           "Found " ++ toString problem.length ++ " aerial/buried segments with non-empty GISTOOL_ID",
           "GISTOOL_ID should be empty for aerial/buried segments:",
           "Showing first 5 problematic segments:\n",
           gistoolTableRender problem])
      else
        (some false, ["\n✅ All aerial and buried segments have empty GISTOOL_ID values"])

/-- `check_gistool_id`: status plus joined message. -/
def check_gistool_id (w : Workspace) : Option Bool × String :=
  ((check_gistool_idCore w).1, joinLines (check_gistool_idCore w).2)

/-- The empty-or-missing test `series.isna() | (series == '')` used for
`IDENTIFIER` columns. -/
def emptyOrMissing (v : Value) : Bool :=
  v.isna || v.eqStrLit ""

/-- `process_shapefiles` (Backend/automation_for_app.py, lines 52-119): the
non-mutating current variant; reports empty feeder `IDENTIFIER`s and
non-virtual closures with empty `IDENTIFIER`. -/
def process_shapefilesCore (w : Workspace) : Option Bool × List String :=
  let header := "🔍 Processing shapefiles: feeder cables and closures"
  match w.load "OUT_FeederCables.shp" with
  | none => (none, [header, "⛔ Error: OUT_FeederCables.shp not found in " ++ w.path])
  | some feeder =>
    let feederStep : List String × Bool :=
      if "IDENTIFIER" ∈ feeder.columns then
        let cnt := (feeder.col "IDENTIFIER").countP emptyOrMissing
        if cnt ≠ 0 then
          (["⚠️ Feeder cables: " ++ toString cnt ++ " record" ++
              (if cnt ≠ 1 then "s" else "") ++ " have empty IDENTIFIER and require attention"],
           true)
        else
          (["✅ Feeder cables: All IDENTIFIER values are populated"], false)
      else
        (["⚠️ Feeder cables: \x27IDENTIFIER\x27 column missing entirely"], true)
    let pre := header :: feederStep.1 ++ [dashLine]
    match w.load "OUT_Closures.shp" with
    | none => (none, pre ++ ["⛔ Error: OUT_Closures.shp not found in " ++ w.path])
    | some closures =>
      let missing := (["IDENTIFIER", "VIRTUAL"].filter (fun c => !(c ∈ closures.columns : Bool)))
      if missing ≠ [] then
        (none, pre ++ ["⛔ Error: Missing columns in closures: " ++ String.intercalate ", " missing])
      else
        let problem := closures.rows.filter (fun r =>
          (r.get "VIRTUAL").eqNum 0 && emptyOrMissing (r.get "IDENTIFIER"))
        if !problem.isEmpty then
          (some true, pre ++
            ["⚠️ Problem found in closures: " ++ toString problem.length ++
              " non-virtual closures with empty IDENTIFIER"])
        else
          (some feederStep.2, pre ++ ["✅ All non-virtual closures have valid IDENTIFIER values"])

/-- `process_shapefiles`: status plus joined message. -/
def process_shapefiles (w : Workspace) : Option Bool × String :=
  ((process_shapefilesCore w).1, joinLines (process_shapefilesCore w).2)

/-- The cable tiers examined by `check_invalid_cable_refs`. -/
def cable_types : List String := ["Feeder", "Drop", "PrimDistribution", "Distribution"]

/-- `series.unique()`: distinct values in first-occurrence order (pandas
keeps NaN as a value here). -/
def uniqueVals : List Value → List Value
  | [] => []
  | v :: t => v :: uniqueVals (t.filter (fun x => !(decide (x = v))))
termination_by l => l.length
decreasing_by
  simp only [List.length_cons]
  exact Nat.lt_succ_of_le (List.length_filter_le _ _)

/-- One iteration of the tier loop of `check_invalid_cable_refs`
(Backend/automation_for_app.py, lines 181-211): the tier's contribution to
`has_issues` and `output`; `.error` models the `KeyError` raised when a
loaded layer has no `CABLE_ID` column. -/
def cableRefsTier (w : Workspace) (layer : String) : Except String (Bool × List String) :=
  let cable_file := "OUT_" ++ layer ++ "Cables.shp"
  let piece_file := "OUT_" ++ layer ++ "CablePieces.shp"
  match w.load cable_file with
  | none => .ok (false, ["⚠️ Cable file missing: " ++ cable_file])
  | some cables =>
    match w.load piece_file with
    | none => .ok (false, ["⚠️ Cable piece file missing: " ++ piece_file])
    | some pieces =>
      if "CABLE_ID" ∈ cables.columns then
        if "CABLE_ID" ∈ pieces.columns then
          let valid_ids := cables.col "CABLE_ID"
          let invalid_pieces := pieces.rows.filter
            (fun r => !(decide (r.get "CABLE_ID" ∈ valid_ids)))
          if invalid_pieces.isEmpty then
            .ok (false, ["✅ " ++ layer ++ "CablePieces: All CABLE_IDs are valid.", dashLine])
          else
            let invalid_ids := uniqueVals (invalid_pieces.map (fun r => r.get "CABLE_ID"))
            .ok (true,
              ["❌ " ++ layer ++ "CablePieces: Found " ++ toString invalid_pieces.length ++
                 " pieces with " ++ toString invalid_ids.length ++ " invalid CableIDs",
               "Invalid CableIDs: " ++
                 String.intercalate ", " ((invalid_ids.take 10).map Value.strOf)] ++
              (if 10 < invalid_ids.length then
                 ["Showing first 10 of " ++ toString invalid_ids.length ++ " invalid IDs"]
               else []) ++
              [dashLine])
        else .error "\x27CABLE_ID\x27"
      else .error "\x27CABLE_ID\x27"

/-- The tier loop of `check_invalid_cable_refs`: accumulates `has_issues`
with `or` and concatenates each tier's output; a raised `KeyError` aborts
the loop, keeping the output produced so far and adding the `except`
clause's line. -/
def cableRefsLoop (w : Workspace) : List String → Option Bool × List String
  | [] => (some false, [])
  | layer :: rest =>
    match cableRefsTier w layer with
    | .error e => (none, ["⛔ Unexpected error: " ++ e])
    | .ok (issue, lines) =>
      match cableRefsLoop w rest with
      | (none, ls) => (none, lines ++ ls)
      | (some b, ls) => (some (issue || b), lines ++ ls)

/-- `check_invalid_cable_refs` (Backend/automation_for_app.py, lines
169-217). -/
def check_invalid_cable_refsCore (w : Workspace) : Option Bool × List String :=
  let res := cableRefsLoop w cable_types
  (res.1, "🔍 Checking CableID references for all cable types" :: res.2)

/-- `check_invalid_cable_refs`: status plus joined message. -/
def check_invalid_cable_refs (w : Workspace) : Option Bool × String :=
  ((check_invalid_cable_refsCore w).1, joinLines (check_invalid_cable_refsCore w).2)

/-- The per-closure-type maximum splice limits of
`report_splice_counts_by_closure`. -/
def MAX_SPLICE_LIMITS : List (String × Nat) :=
  [("BE16", 840), ("flat_dis", 288), ("OFDC", 96), ("Budi-S 9-48 HP", 48),
   ("POC_UG_1-8HP", 8), ("Budi-S 49-72 HP", 72)]

/-- `identifier in MAX_SPLICE_LIMITS` plus the limit lookup: only a string
identifier can match the dict's string keys (a missing `IDENTIFIER` is
replaced by the non-key `N/A`, and a numeric one matches nothing). -/
def spliceLimitOf : Value → Option Nat
  | .str s => (MAX_SPLICE_LIMITS.find? (fun p => p.1 == s)).map (fun p => p.2)
  | _ => none

/-- The merged `report_df` rows of `report_splice_counts_by_closure`: per
closure row its `IDENTIFIER`, its `ID` as a string, and the splice count
merged from `value_counts` of the splices' `ID` column (string-keyed left
join; a closure with no matching splice-count key gets count 0). -/
def spliceReportRows (closures splices : Layer) : List (Value × String × Nat) :=
  closures.rows.flatMap (fun r =>
    let idStr := (r.get "ID").strOf
    let matched := (valueCountsPairs (splices.col "ID")).filter
      (fun kv => kv.1.strOf == idStr)
    if matched.isEmpty then [(r.get "IDENTIFIER", idStr, 0)]
    else matched.map (fun kv => (r.get "IDENTIFIER", idStr, kv.2)))

/-- The `problematic_closures` list of `report_splice_counts_by_closure`:
merged rows whose closure type has a defined limit and whose splice count
strictly exceeds it, as `(identifier, closure_id, splice_count, limit)`. -/
def spliceProblematic (closures splices : Layer) : List (String × String × Nat × Nat) :=
  (spliceReportRows closures splices).filterMap (fun t =>
    match spliceLimitOf t.1 with
    | some lim => if lim < t.2.2 then some (t.1.strOf, t.2.1, t.2.2, lim) else none
    | none => none)

/-- Pads a string on the right with spaces to a minimum width, as the
Python left-aligning format spec does. -/
def padRight (s : String) (n : Nat) : String :=
  s ++ String.mk (List.replicate (n - s.length) ' ')

/-- `report_splice_counts_by_closure` (Backend/automation_for_app.py,
lines 223-303). `.error`-style branches model the `KeyError`s raised by
the column accesses when a required column is absent. -/
def report_splice_counts_by_closureCore (w : Workspace) : Option Bool × List String :=
  let header := "🔍 Reporting splices per closure type"
  match w.load "OUT_Closures.shp" with
  | none => (none, [header, "❌ Missing file: OUT_Closures.shp"])
  | some closures =>
    match w.load "OUT_Splices.shp" with
    | none => (none, [header, "❌ Missing file: OUT_Splices.shp"])
    | some splices =>
      if "ID" ∉ splices.columns then
        (none, [header, "⛔ Unexpected error: \x27ID\x27"])
      else if "ID" ∉ closures.columns then
        (none, [header, "⛔ Unexpected error: \x27ID\x27"])
      else if "IDENTIFIER" ∉ closures.columns then
        (none, [header, "⛔ Unexpected error: [\x27IDENTIFIER\x27] not in index"])
      else
        let problematic := spliceProblematic closures splices
        if !problematic.isEmpty then
          (some false,
            [header,
             padRight "Closure Type" 30 ++ " " ++ padRight "Closure ID" 20 ++ " " ++
               padRight "# Splices" 10 ++ " " ++ "Message",
             String.mk (List.replicate 100 '-')] ++
            problematic.map (fun c =>
              padRight c.1 30 ++ " " ++ padRight c.2.1 20 ++ " " ++
                padRight (toString c.2.2.1) 10 ++ " " ++
                "This closure exceeds the maximum number of splices which is " ++
                toString c.2.2.2) ++
            ["\n❌ Found " ++ toString problematic.length ++
               " closure(s) exceeding splice limits."])
        else
          (some false, [header, "✅ All closures are within their maximum splice limits."])

/-- `report_splice_counts_by_closure`: status plus joined message. -/
def report_splice_counts_by_closure (w : Workspace) : Option Bool × String :=
  ((report_splice_counts_by_closureCore w).1,
   joinLines (report_splice_counts_by_closureCore w).2)

/-- The seven cluster layer files checked by default by
`check_cluster_overlaps`. -/
def cluster_files_default : List String :=
  ["OUT_DropClusters.shp",
   "OUT_DistributionClusters.shp",
   "OUT_DistributionCableClusters.shp",
   "OUT_PrimDistributionClusters.shp",
   "OUT_PrimDistributionCableClusters.shp",
   "OUT_FeederClusters.shp",
   "OUT_FeederCableClusters.shp"]

/-- `sindex.query(geom, predicate="intersects")`: the indices of the
geometries that intersect the query geometry (the spatial index narrows by
bounding box and the predicate confirms true intersection). -/
def queryIntersects (gs : List Geom) (g : Geom) : List Nat :=
  (List.range gs.length).filter (fun j => g.intersects (gs.getD j default))

/-- The overlap-pair collection loop of `check_cluster_overlaps`
(Backend/automation_for_app.py, lines 342-346): for each feature index, the
spatial-index candidates `j` with `idx < j` whose geometry intersects. -/
def overlapPairs (gs : List Geom) : List (Nat × Nat) :=
  (List.range gs.length).flatMap (fun idx =>
    ((queryIntersects gs (gs.getD idx default)).filter
        (fun j => decide (idx < j) && (gs.getD idx default).intersects (gs.getD j default))).map
      (fun j => (idx, j)))

/-- `gdf.loc[i].get(col, i)`: the row's attribute rendered as text, falling
back to the row index when the attribute is absent. -/
def clusterIdRender (rows : List Row) (col : String) (i : Nat) : String :=
  match (rows.getD i ⟨[], none⟩).attrs.find? (fun p => p.1 == col) with
  | some p => p.2.strOf
  | none => toString i

/-- The per-file loop of `check_cluster_overlaps` (Backend/
automation_for_app.py, lines 330-363): accumulates `issues_found` and the
report lines; a missing file is skipped with a warning. -/
def clusterLoop (w : Workspace) : List String → Bool × List String
  | [] => (false, [])
  | file :: rest =>
    let restRes := clusterLoop w rest
    match w.load file with
    | none => (restRes.1, ("⚠️ File not found: " ++ file) :: restRes.2)
    | some gdf =>
      let nnRows := gdf.rows.filter (fun r => r.geom.isSome)
      let geoms := nnRows.filterMap (fun r => r.geom)
      let overlaps := overlapPairs geoms
      if overlaps.isEmpty then
        (restRes.1, ("✅ " ++ file ++ ": No overlaps detected.") :: dashLine :: restRes.2)
      else
        (true,
          (("❌ " ++ file ++ ": " ++ toString overlaps.length ++ " overlaps found:") ::
            (overlaps.take 5).map (fun p =>
              if strContains file "CableClusters" then
                "   • Cluster CAB_GROUP " ++ clusterIdRender nnRows "CAB_GROUP" p.1 ++
                  " overlaps with CAB_GROUP " ++ clusterIdRender nnRows "CAB_GROUP" p.2
              else
                "   • Cluster AGG_ID " ++ clusterIdRender nnRows "AGG_ID" p.1 ++
                  " overlaps with Cluster AGG_ID " ++ clusterIdRender nnRows "AGG_ID" p.2)) ++
          dashLine :: restRes.2)

/-- `check_cluster_overlaps` (Backend/automation_for_app.py, lines
308-369); the engine calls it with the default cluster file list. -/
def check_cluster_overlapsCore (w : Workspace)
    (files : List String := cluster_files_default) : Option Bool × List String :=
  let res := clusterLoop w files
  (some res.1, "🔍 Running cluster self-overlap checks...\n" :: res.2)

/-- `check_cluster_overlaps`: status plus joined message. -/
def check_cluster_overlaps (w : Workspace)
    (files : List String := cluster_files_default) : Option Bool × String :=
  ((check_cluster_overlapsCore w files).1, joinLines (check_cluster_overlapsCore w files).2)

/-- The cable tiers examined by `check_granularity_fields` (note the order
differs from `cable_types`). -/
def granularity_layers : List String := ["Feeder", "Drop", "Distribution", "PrimDistribution"]

/-- Simple rendering of the first-5-rows preview of
`check_granularity_fields` (stands in for pandas `to_string`). -/
def granPreviewRender (rows : List Row) : String :=
  joinLines ((rows.take 5).map (fun r =>
    (r.get "CABLE_ID").strOf ++ " " ++ (r.get "CABLEGRAN").strOf ++ " " ++
      (r.get "BUNDLEGRAN").strOf))

/-- One iteration of the layer loop of `check_granularity_fields`
(Backend/automation_for_app.py, lines 388-412); `.error` models the
`KeyError` raised by the preview projection when `CABLE_ID` is absent. -/
def granTier (w : Workspace) (layer : String) : Except String (Bool × List String) :=
  let file_name := "OUT_" ++ layer ++ "Cables.shp"
  match w.load file_name with
  | none => .ok (false, ["⚠️ Missing: " ++ file_name])
  | some gdf =>
    if "CABLEGRAN" ∉ gdf.columns ∨ "BUNDLEGRAN" ∉ gdf.columns then
      .ok (true, ["❌ " ++ file_name ++ " is missing CABLEGRAN or BUNDLEGRAN fields."])
    else
      let invalid := gdf.rows.filter (fun r =>
        (r.get "CABLEGRAN").eqNum (-1) || (r.get "BUNDLEGRAN").eqNum (-1))
      if invalid.isEmpty then
        .ok (false, ["✅ " ++ file_name ++ ": All granularity values are valid.", dashLine])
      else
        if "CABLE_ID" ∈ gdf.columns then
          .ok (true,
            ["❌ " ++ file_name ++ ": " ++ toString invalid.length ++ " invalid rows:",
             granPreviewRender invalid, dashLine])
        else .error "[\x27CABLE_ID\x27] not in index"

/-- The layer loop of `check_granularity_fields`: accumulates
`issues_found`; a raised exception aborts the loop with the `except`
clause's line. -/
def granLoop (w : Workspace) : List String → Option Bool × List String
  | [] => (some false, [])
  | layer :: rest =>
    match granTier w layer with
    | .error e => (none, ["⛔ Error checking granularity fields: " ++ e])
    | .ok (issue, lines) =>
      match granLoop w rest with
      | (none, ls) => (none, lines ++ ls)
      | (some b, ls) => (some (issue || b), lines ++ ls)

/-- `check_granularity_fields` (Backend/automation_for_app.py, lines
374-418). -/
def check_granularity_fieldsCore (w : Workspace) : Option Bool × List String :=
  let res := granLoop w granularity_layers
  (res.1, "🔍 Checking CABLEGRAN and BUNDLEGRAN values in cable layers...\n" :: res.2)

/-- `check_granularity_fields`: status plus joined message. -/
def check_granularity_fields (w : Workspace) : Option Bool × String :=
  ((check_granularity_fieldsCore w).1, joinLines (check_granularity_fieldsCore w).2)

/-- Simple rendering of the bad-closure report of
`validate_non_virtual_closures` (stands in for pandas `to_string`). -/
def nonVirtualReportRender (rows : List Row) : String :=
  joinLines (rows.map (fun r =>
    (r.get "EQ_ID").strOf ++ " " ++ (r.get "LAYER").strOf ++ " " ++
      (r.get "VIRTUAL").strOf))

/-- `validate_non_virtual_closures` (Backend/automation_for_app.py, lines
426-483). -/
def validate_non_virtual_closuresCore (w : Workspace) : Option Bool × List String :=
  let header := "🔍 Validating non-virtual closures..."
  match w.load "OUT_Closures.shp" with
  | none => (none, [header, "⛔ Error: OUT_Closures.shp not found in " ++ w.path])
  | some closures =>
    let missing := ["LAYER", "VIRTUAL", "EQ_ID"].filter
      (fun c => !(c ∈ closures.columns : Bool))
    if missing ≠ [] then
      (none, [header, "⛔ Error: Missing required columns: " ++ String.intercalate ", " missing])
    else
      let bad := closures.rows.filter (fun r =>
        decide (r.get "LAYER" ∈
          [Value.str "PrimDistribution", Value.str "Distribution", Value.str "Drop"]) &&
        (r.get "VIRTUAL").eqNum 1)
      if !bad.isEmpty then
        (some true,
          [header,
           "❌ Found " ++ toString bad.length ++ " closures incorrectly marked as virtual:",
           "These closure types should never be virtual:",
           "- PrimDistribution",
           "- Distribution",
           "- Drop\n",
           nonVirtualReportRender bad])
      else
        (some false,
          [header,
           "✅ All PrimDistribution, Distribution, and Drop closures are non-virtual as expected."])

/-- `validate_non_virtual_closures`: status plus joined message. -/
def validate_non_virtual_closures (w : Workspace) : Option Bool × String :=
  ((validate_non_virtual_closuresCore w).1, joinLines (validate_non_virtual_closuresCore w).2)

/-- Squared Euclidean distance between two points. The source compares
`feeder_geom.distance(prim_geom) < tolerance`; since a distance is
non-negative, that comparison holds iff `0 < tolerance` and the squared
distance is below `tolerance * tolerance`, which is how the comparison is
embedded (keeping coordinates rational). -/
def distSq (x1 y1 x2 y2 : Rat) : Rat :=
  (x1 - x2) * (x1 - x2) + (y1 - y2) * (y1 - y2)

/-- `validate_feeder_primdistribution_locations` (Backend/
automation_for_app.py, lines 488-558). The numeric rendering of the
distance in the message is abbreviated (the source prints it with 6
decimals); a first feature whose geometry is not a point falls to the
`except` clause. The engine calls this with the default tolerance 0.01. -/
def validate_feeder_primdistribution_locationsCore (w : Workspace)
    (tolerance : Rat := mkRat 1 100) : Option Bool × List String :=
  let header := "\n🔍 Validating Feeder and Primary Distribution Point locations..."
  match w.load "OUT_FeederPoints.shp" with
  | none => (none, [header, "⛔ Error: OUT_FeederPoints.shp not found"])
  | some feeder =>
    match w.load "OUT_PrimDistributionPoints.shp" with
    | none => (none, [header, "⛔ Error: OUT_PrimDistributionPoints.shp not found"])
    | some prim =>
      let warns :=
        (if feeder.rows.length ≠ 1 then
          ["⚠️ Warning: OUT_FeederPoints.shp has " ++ toString feeder.rows.length ++
             " features (expected 1)"]
         else []) ++
        (if prim.rows.length ≠ 1 then
          ["⚠️ Warning: OUT_PrimDistributionPoints.shp has " ++ toString prim.rows.length ++
             " features (expected 1)"]
         else [])
      let pre := header :: warns
      match feeder.rows, prim.rows with
      | [], _ => (none, pre ++ ["\n⛔ Cannot perform validation - one or both files are empty"])
      | _ :: _, [] => (none, pre ++ ["\n⛔ Cannot perform validation - one or both files are empty"])
      | fr :: _, pr :: _ =>
        match fr.geom, pr.geom with
        | some (.pt fx fy), some (.pt px py) =>
          if 0 < tolerance ∧ distSq fx fy px py < tolerance * tolerance then
            (some true, pre ++
              ["\n⚠️  CRITICAL ISSUE: Feeder and Primary Distribution Points are too close!",
               "Distance between points: squared " ++ toString (distSq fx fy px py) ++
                 " units (tolerance: " ++ toString tolerance ++ " units)",
               "Feeder Point location: X=" ++ toString fx ++ ", Y=" ++ toString fy,
               "Primary Distribution Point location: X=" ++ toString px ++ ", Y=" ++ toString py,
               "\n❌ These points should not be co-located. Please verify in GIS software."])
          else
            (some false, pre ++
              ["\n✅ Validation passed - points are sufficiently separated",
               "Distance between points: squared " ++ toString (distSq fx fy px py) ++
                 " units (minimum required: " ++ toString tolerance ++ " units)"])
        | _, _ => (none, pre ++ ["⛔ Unexpected error: geometry is not a point"])

/-- `validate_feeder_primdistribution_locations`: status plus joined
message. -/
def validate_feeder_primdistribution_locations (w : Workspace)
    (tolerance : Rat := mkRat 1 100) : Option Bool × String :=
  ((validate_feeder_primdistribution_locationsCore w tolerance).1,
   joinLines (validate_feeder_primdistribution_locationsCore w tolerance).2)

/-- The three cable files examined by `validate_cable_diameters`. -/
def cable_diameter_files : List String :=
  ["OUT_DistributionCables.shp", "OUT_FeederCables.shp", "OUT_PrimDistributionCables.shp"]

/-- A cable row with a missing-or-zero `DIAMETER`. -/
def badDiameter (r : Row) : Bool :=
  (r.get "DIAMETER").isna || (r.get "DIAMETER").eqNum 0

/-- Simple rendering of the sample of problematic cables of
`validate_cable_diameters` (stands in for pandas `to_string`). -/
def diamSampleRender (rows : List Row) : String :=
  joinLines ((rows.take 5).map (fun r =>
    (r.get "CABLE_ID").strOf ++ " " ++ (r.get "DIAMETER").strOf))

/-- One iteration of the file loop of `validate_cable_diameters`
(Backend/automation_for_app.py, lines 585-617), returning the file's
contribution to `(has_issues, any_errors)` and the output lines; `.error`
models the `KeyError` raised by the sample projection when `CABLE_ID` is
absent. -/
def diamFileStep (w : Workspace) (file : String) : Except String (Bool × Bool × List String) :=
  match w.load file with
  | none => .ok (false, true, ["⛔ Error: " ++ file ++ " not found in workspace"])
  | some gdf =>
    if "DIAMETER" ∉ gdf.columns then
      .ok (false, true, ["⛔ Error: " ++ file ++ " is missing DIAMETER column"])
    else
      let invalid := gdf.rows.filter badDiameter
      if invalid.isEmpty then
        .ok (false, false, ["\n✅ " ++ file ++ ": All cables have valid diameters"])
      else
        if "CABLE_ID" ∈ gdf.columns then
          .ok (true, true,
            ["\n❌ PROBLEM: Found " ++ toString invalid.length ++
               " cables with invalid diameters in " ++ file,
             "Cables must have non-zero diameter values",
             "\nSample of problematic cables:",
             diamSampleRender invalid])
        else .error "[\x27CABLE_ID\x27] not in index"

/-- The file loop of `validate_cable_diameters`: accumulates
`(has_issues, any_errors)`; a raised exception aborts the loop with the
`except` clause's line. -/
def diamLoop (w : Workspace) : List String → Option (Bool × Bool) × List String
  | [] => (some (false, false), [])
  | file :: rest =>
    match diamFileStep w file with
    | .error e => (none, ["⛔ Unexpected error: " ++ e])
    | .ok (iss, err, lines) =>
      match diamLoop w rest with
      | (none, ls) => (none, lines ++ ls)
      | (some be, ls) => (some (iss || be.1, err || be.2), lines ++ ls)

/-- `validate_cable_diameters` (Backend/automation_for_app.py, lines
561-626). -/
def validate_cable_diametersCore (w : Workspace) : Option Bool × List String :=
  let header := "\n🔍 Validating cable diameters..."
  match diamLoop w cable_diameter_files with
  | (none, ls) => (none, header :: ls)
  | (some be, ls) =>
    (some be.1,
     header :: ls ++
       (if !be.2 then ["\n✅ All cable files have valid diameter values"] else []))

/-- `validate_cable_diameters`: status plus joined message. -/
def validate_cable_diameters (w : Workspace) : Option Bool × String :=
  ((validate_cable_diametersCore w).1, joinLines (validate_cable_diametersCore w).2)

/-- The default check-name list substituted by the handler when the caller
selects no checks (Backend/api/validate.py, lines 176-187). -/
def default_checks : List String :=
  ["OSC Duplicates Check",
   "Cluster Overlap Check",
   "Cable Granularity Check",
   "Non-virtual Closure Validation",
   "Point Location Validation",
   "Cable Diameter Validation",
   "Cable Reference Validation",
   "Shapefile Processing",
   "GISTOOL_ID Validation",
   "Splice Count Report"]

/-- The check catalogue `CHECK_FUNCTIONS` (Backend/api/validate.py, lines
190-201). Each catalogue function is wrapped in `Except` so the engine's
per-check `try/except` is expressible; the concrete checks never throw at
this level (each catches its own exceptions internally), so they are all
embedded with `.ok`. -/
def CHECK_FUNCTIONS (name : String) :
    Option (Workspace → Except String (Option Bool × String)) :=
  match name with
  | "OSC Duplicates Check" => some (fun w => .ok (check_osc_duplicates w))
  | "Cluster Overlap Check" => some (fun w => .ok (check_cluster_overlaps w))
  | "Cable Granularity Check" => some (fun w => .ok (check_granularity_fields w))
  | "Non-virtual Closure Validation" => some (fun w => .ok (validate_non_virtual_closures w))
  | "Point Location Validation" =>
      some (fun w => .ok (validate_feeder_primdistribution_locations w))
  | "Cable Diameter Validation" => some (fun w => .ok (validate_cable_diameters w))
  | "Cable Reference Validation" => some (fun w => .ok (check_invalid_cable_refs w))
  | "Shapefile Processing" => some (fun w => .ok (process_shapefiles w))
  | "GISTOOL_ID Validation" => some (fun w => .ok (check_gistool_id w))
  | "Splice Count Report" => some (fun w => .ok (report_splice_counts_by_closure w))
  | _ => none

/-- The engine loop of the handler (Backend/api/validate.py, lines
204-214), generic in the catalogue: for each requested name, an unknown
name yields the not-found triple, a raised exception is caught and yields
the error triple, and otherwise the check's own result is recorded. -/
def runChecks (cat : String → Option (Workspace → Except String (Option Bool × String)))
    (w : Workspace) : List String → List (String × Option Bool × String)
  | [] => []
  | name :: rest =>
    (match cat name with
     | none => (name, none, "Check function not found")
     | some f =>
       match f w with
       | .ok r => (name, r.1, r.2)
       | .error e => (name, none, "Error running check: " ++ e)) :: runChecks cat w rest

/-- The files written by `check_osc_duplicates`: the source performs no
file write (no `to_file`/`os` mutation appears in its body). -/
def check_osc_duplicates_writes (_ : Workspace) : List String := []

/-- The files written by `check_cluster_overlaps`: none in the source. -/
def check_cluster_overlaps_writes (_ : Workspace) : List String := []

/-- The files written by `check_granularity_fields`: none in the source. -/
def check_granularity_fields_writes (_ : Workspace) : List String := []

/-- The files written by `validate_non_virtual_closures`: none in the
source. -/
def validate_non_virtual_closures_writes (_ : Workspace) : List String := []

/-- The files written by `validate_feeder_primdistribution_locations`:
none in the source. -/
def validate_feeder_primdistribution_locations_writes (_ : Workspace) : List String := []

/-- The files written by `validate_cable_diameters`: none in the source. -/
def validate_cable_diameters_writes (_ : Workspace) : List String := []

/-- The files written by `check_invalid_cable_refs`: none in the source. -/
def check_invalid_cable_refs_writes (_ : Workspace) : List String := []

/-- The files written by the current `process_shapefiles`
(Backend/automation_for_app.py): none — this variant "checks feeder cables
and closures without modifying files". -/
def process_shapefiles_writes (_ : Workspace) : List String := []

/-- The files written by `check_gistool_id`: none in the source. -/
def check_gistool_id_writes (_ : Workspace) : List String := []

/-- The files written by `report_splice_counts_by_closure`: none in the
source. -/
def report_splice_counts_by_closure_writes (_ : Workspace) : List String := []

/-- The files written by the HISTORICAL `process_shapefiles` of
src/automation.py (lines 186-216), which rewrites `OUT_FeederCables.shp`
with `to_file` whenever the `IDENTIFIER` column is absent or has an empty
or missing entry. This variant is NOT in the engine catalogue. -/
def automation_process_shapefiles_writes (w : Workspace) : List String :=
  match w.load "OUT_FeederCables.shp" with
  | none => []
  | some feeder =>
    if "IDENTIFIER" ∈ feeder.columns then
      if (feeder.col "IDENTIFIER").any emptyOrMissing then ["OUT_FeederCables.shp"] else []
    else ["OUT_FeederCables.shp"]

/-- The write-effect map of the catalogue: the files each catalogue check
writes, per check name (mirroring `CHECK_FUNCTIONS`). -/
def CHECK_WRITES (name : String) : Option (Workspace → List String) :=
  match name with
  | "OSC Duplicates Check" => some check_osc_duplicates_writes
  | "Cluster Overlap Check" => some check_cluster_overlaps_writes
  | "Cable Granularity Check" => some check_granularity_fields_writes
  | "Non-virtual Closure Validation" => some validate_non_virtual_closures_writes
  | "Point Location Validation" => some validate_feeder_primdistribution_locations_writes
  | "Cable Diameter Validation" => some validate_cable_diameters_writes
  | "Cable Reference Validation" => some check_invalid_cable_refs_writes
  | "Shapefile Processing" => some process_shapefiles_writes
  | "GISTOOL_ID Validation" => some check_gistool_id_writes
  | "Splice Count Report" => some report_splice_counts_by_closure_writes
  | _ => none

/-- The issue flag a fully-processed tier contributes in
`check_invalid_cable_refs`: whether some piece row's `CABLE_ID` is not
among the cable layer's `CABLE_ID` values (false when either file is
missing, since the tier is then skipped). -/
def tierIssueB (w : Workspace) (layer : String) : Bool :=
  match w.load ("OUT_" ++ layer ++ "Cables.shp"),
        w.load ("OUT_" ++ layer ++ "CablePieces.shp") with
  | some cables, some pieces =>
      !(pieces.rows.filter
          (fun r => !(decide (r.get "CABLE_ID" ∈ cables.col "CABLE_ID")))).isEmpty
  | _, _ => false

/-- The splice count the claim attributes to a closure row: the number of
rows of `OUT_Splices` whose (non-null) `ID` matches the closure's `ID`
after string conversion. -/
def spliceMatchCount (S : Layer) (idStr : String) : Nat :=
  (S.col "ID").countP (fun v => !v.isna && (v.strOf == idStr))

/-- Modelled from the claim's words (spec side of the refinement for the
Splice Count Report): one entry per closure row whose `IDENTIFIER` is one
of the six limited types and whose splice count strictly exceeds the
type's limit. -/
def spliceProblematicSpec (C S : Layer) : List (String × String × Nat × Nat) :=
  C.rows.filterMap (fun r =>
    match r.get "IDENTIFIER" with
    | .str s =>
      match (MAX_SPLICE_LIMITS.find? (fun p => p.1 == s)).map (fun p => p.2) with
      | some lim =>
        if lim < spliceMatchCount S ((r.get "ID").strOf) then
          some (s, (r.get "ID").strOf, spliceMatchCount S ((r.get "ID").strOf), lim)
        else none
      | none => none
    | _ => none)

/-- A workspace containing no layer files at all. -/
def wsEmpty : Workspace := ⟨"ws", []⟩

/-- Counterexample workspace for the universal missing-input claim: the
feeder cable file exists but has no `CABLEGRAN` column. -/
def wsGranCex : Workspace :=
  ⟨"ws", [("OUT_FeederCables.shp", ⟨["BUNDLEGRAN"], []⟩)]⟩

/-- Counterexample workspace for the Splice Count Report claim: both
required files exist, but the splices layer has no `ID` column. -/
def wsSpliceCex : Workspace :=
  ⟨"ws",
   [("OUT_Closures.shp", ⟨["IDENTIFIER", "ID"], []⟩),
    ("OUT_Splices.shp", ⟨["IDENT"], []⟩)]⟩

/-- Counterexample workspace for the cable-reference claim: the Feeder
tier has an unmatched `CABLE_ID`, but the Drop cable layer lacks the
`CABLE_ID` column, so the check ends in the `except` clause. -/
def wsRefsCex : Workspace :=
  ⟨"ws",
   [("OUT_FeederCables.shp",
     ⟨["CABLE_ID"], [⟨[("CABLE_ID", .num 1)], none⟩]⟩),
    ("OUT_FeederCablePieces.shp",
     ⟨["CABLE_ID"], [⟨[("CABLE_ID", .num 3)], none⟩]⟩),
    ("OUT_DropCables.shp", ⟨["NAME"], []⟩),
    ("OUT_DropCablePieces.shp", ⟨["CABLE_ID"], []⟩)]⟩

/-- Witness workspace for the OSC duplicate claims: `LINKED_AGG` values
`[A, B, A]`. -/
def wsABA : Workspace :=
  ⟨"ws",
   [("OUT_Closures.shp",
     ⟨["LINKED_AGG"],
      [⟨[("LINKED_AGG", .str "A")], none⟩,
       ⟨[("LINKED_AGG", .str "B")], none⟩,
       ⟨[("LINKED_AGG", .str "A")], none⟩]⟩)]⟩

/-- Witness workspace with two closure rows whose `LINKED_AGG` is missing
and one with a value. -/
def wsNullAgg : Workspace :=
  ⟨"ws",
   [("OUT_Closures.shp",
     ⟨["LINKED_AGG"],
      [⟨[("LINKED_AGG", .null)], none⟩,
       ⟨[("LINKED_AGG", .str "B")], none⟩,
       ⟨[("LINKED_AGG", .null)], none⟩]⟩)]⟩

/-- Witness workspace for the point-location claim: singleton point layers
at distance exactly the default tolerance (1/100). -/
def wsPoints : Workspace :=
  ⟨"ws",
   [("OUT_FeederPoints.shp",
     ⟨[], [⟨[], some (.pt 0 0)⟩]⟩),
    ("OUT_PrimDistributionPoints.shp",
     ⟨[], [⟨[], some (.pt (mkRat 1 100) 0)⟩]⟩)]⟩

/-- Witness workspace for the cluster-overlap claim: a drop-cluster layer
with two overlapping boxes and one disjoint box. -/
def wsOverlap : Workspace :=
  ⟨"ws",
   [("OUT_DropClusters.shp",
     ⟨["AGG_ID"],
      [⟨[("AGG_ID", .num 1)], some (.box 0 0 2 2)⟩,
       ⟨[("AGG_ID", .num 2)], some (.box 1 1 3 3)⟩,
       ⟨[("AGG_ID", .num 3)], some (.box 10 10 11 11)⟩]⟩)]⟩

/-- Witness workspace for the cable-diameter claim: only the feeder cable
file is present and its diameters are valid. -/
def wsDiam : Workspace :=
  ⟨"ws",
   [("OUT_FeederCables.shp",
     ⟨["CABLE_ID", "DIAMETER"], [⟨[("CABLE_ID", .num 1), ("DIAMETER", .num 12)], none⟩]⟩)]⟩

/-- Witness workspace for the Splice Count Report claim: one BE16 closure
with two matching splices (limit 840 not exceeded) and one limited-type
closure of type `POC_UG_1-8HP` exceeding its limit of 8. -/
def wsSpliceOk : Workspace :=
  ⟨"ws",
   [("OUT_Closures.shp",
     ⟨["IDENTIFIER", "ID"],
      [⟨[("IDENTIFIER", .str "BE16"), ("ID", .num 1)], none⟩,
       ⟨[("IDENTIFIER", .str "POC_UG_1-8HP"), ("ID", .num 2)], none⟩]⟩),
    ("OUT_Splices.shp",
     ⟨["ID"],
      [⟨[("ID", .num 1)], none⟩,
       ⟨[("ID", .num 1)], none⟩,
       ⟨[("ID", .num 2)], none⟩,
       ⟨[("ID", .num 2)], none⟩,
       ⟨[("ID", .num 2)], none⟩,
       ⟨[("ID", .num 2)], none⟩,
       ⟨[("ID", .num 2)], none⟩,
       ⟨[("ID", .num 2)], none⟩,
       ⟨[("ID", .num 2)], none⟩,
       ⟨[("ID", .num 2)], none⟩,
       ⟨[("ID", .num 2)], none⟩]⟩)]⟩

/-- Witness workspace for the cable-reference claim: the end-to-end
scenario of the spec (feeder cables 1,2; feeder pieces 1,2,3). -/
def wsRefsOk : Workspace :=
  ⟨"ws",
   [("OUT_FeederCables.shp",
     ⟨["CABLE_ID"],
      [⟨[("CABLE_ID", .num 1)], none⟩, ⟨[("CABLE_ID", .num 2)], none⟩]⟩),
    ("OUT_FeederCablePieces.shp",
     ⟨["CABLE_ID"],
      [⟨[("CABLE_ID", .num 1)], none⟩, ⟨[("CABLE_ID", .num 2)], none⟩,
       ⟨[("CABLE_ID", .num 3)], none⟩]⟩)]⟩

/-- `Geom.intersects` is symmetric, as geometric intersection is. -/
theorem Geom.intersects_comm (a b : Geom) : a.intersects b = b.intersects a := by
  cases a <;> cases b <;> simp only [Geom.intersects] <;> rw [decide_eq_decide] <;>
    constructor <;> intro h <;> obtain ⟨h1, h2⟩ := h <;> refine ⟨?_, ?_⟩ <;>
    first
      | exact h1
      | exact h2
      | exact h1.symm
      | exact h2.symm
      | (rw [max_comm, min_comm]; assumption)

/-- The historical variant really does write: on a workspace whose feeder
layer has an empty `IDENTIFIER`, it rewrites `OUT_FeederCables.shp`
(contrast with the read-only current catalogue). -/
theorem automation_variant_writes_example :
    automation_process_shapefiles_writes
      ⟨"ws", [("OUT_FeederCables.shp", ⟨["IDENTIFIER"], [⟨[("IDENTIFIER", .str "")], none⟩]⟩)]⟩ =
      ["OUT_FeederCables.shp"] := by
  decide

/-- C1: for every requested list of check names, the engine returns exactly
one result triple per requested name, in request order: a name not in the
catalogue yields `(name, null, "Check function not found")`; a check whose
function raises an exception yields
`(name, null, "Error running check: <details>")`; no exception escapes the
loop (it is a total function into a result list) and each entry depends
only on its own name's check, so one check's failure never removes or
alters another requested check's result. -/
theorem engine_one_result_per_requested_name
    (cat : String → Option (Workspace → Except String (Option Bool × String)))
    (w : Workspace) (names : List String) :
    runChecks cat w names =
      names.map (fun name =>
        match cat name with
        | none => (name, none, "Check function not found")
        | some f =>
          match f w with
          | .ok r => (name, r.1, r.2)
          | .error e => (name, none, "Error running check: " ++ e)) ∧
    (runChecks cat w names).map (fun r => r.1) = names ∧
    (runChecks cat w names).length = names.length := by
  induction names with
  | nil => exact ⟨rfl, rfl, rfl⟩
  | cons n rest ih =>
    refine ⟨?_, ?_, ?_⟩
    · show _ :: runChecks cat w rest = _ :: _
      rw [ih.1]
    · show (_ :: runChecks cat w rest).map _ = _
      rw [List.map_cons, ih.2.1]
      congr 1
      cases cat n with
      | none => rfl
      | some f =>
        cases hfw : f w with
        | ok r => simp only [hfw]
        | error e => simp only [hfw]
    · show (_ :: runChecks cat w rest).length = _
      rw [List.length_cons, ih.2.2, List.length_cons]

/-- C8: every check in the current engine catalogue, including the current
`process_shapefiles` bound to "Shapefile Processing", performs only reads:
its write-effect (the list of workspace files it writes, creates or
deletes, translated per check from the source, which contains no file
write) is empty on every workspace. -/
theorem catalogue_checks_read_only :
    ∀ name ∈ default_checks, ∀ (w : Workspace) (f : Workspace → List String),
      CHECK_WRITES name = some f → f w = [] := by
  intro name hname w f hf
  fin_cases hname <;>
    (simp only [CHECK_WRITES] at hf) <;>
    (injection hf with hf) <;> subst hf <;> rfl

theorem catalogue_checks_read_only_witness :
    process_shapefiles_writes wsEmpty = [] :=
  catalogue_checks_read_only "Shapefile Processing" (by decide) wsEmpty
    process_shapefiles_writes rfl

/-- Counterexample to C2 as stated: `check_granularity_fields`, on a
workspace whose feeder cable file exists but lacks the required
`CABLEGRAN` column, returns status true — not the claimed null. -/
theorem granularity_missing_column_not_indeterminate :
    (check_granularity_fields wsGranCex).1 = some true := by decide

/-- C2 (amended): for the single-layer checks — OSC Duplicates, GISTOOL_ID
Validation, Non-virtual Closure Validation, Shapefile Processing, Splice
Count Report and Point Location Validation — a missing required layer file
yields status null with a message naming the file, and for the first four
a loaded layer missing a required column likewise yields status null with
a message naming the missing column(s); the early return means the check
stops there rather than running any further. (The multi-file checks
instead skip missing files with warnings, as the counterexample shows.) -/
theorem single_layer_checks_missing_input_indeterminate (w : Workspace) :
    (w.load "OUT_Closures.shp" = none →
      check_osc_duplicatesCore w =
        (none, ["⛔ Error: OUT_Closures.shp not found in workspace: " ++ w.path])) ∧
    (∀ L, w.load "OUT_Closures.shp" = some L → "LINKED_AGG" ∉ L.columns →
      check_osc_duplicatesCore w =
        (none, ["⛔ Error: \x27LINKED_AGG\x27 column not found in the shapefile"])) ∧
    (w.load "OUT_UsedSegments.shp" = none →
      check_gistool_idCore w =
        (none, ["⛔ Error: OUT_UsedSegments.shp not found in " ++ w.path])) ∧
    (∀ L, w.load "OUT_UsedSegments.shp" = some L →
      ∀ c ∈ ["TYPE", "GISTOOL_ID", "ID"], c ∉ L.columns →
      check_gistool_idCore w =
        (none, ["⛔ Error: Missing required columns: " ++
          String.intercalate ", "
            (["TYPE", "GISTOOL_ID", "ID"].filter (fun c => !(c ∈ L.columns : Bool)))])) ∧
    (w.load "OUT_Closures.shp" = none →
      validate_non_virtual_closuresCore w =
        (none, ["🔍 Validating non-virtual closures...",
                "⛔ Error: OUT_Closures.shp not found in " ++ w.path])) ∧
    (∀ L, w.load "OUT_Closures.shp" = some L →
      ∀ c ∈ ["LAYER", "VIRTUAL", "EQ_ID"], c ∉ L.columns →
      validate_non_virtual_closuresCore w =
        (none, ["🔍 Validating non-virtual closures...",
                "⛔ Error: Missing required columns: " ++
                  String.intercalate ", "
                    (["LAYER", "VIRTUAL", "EQ_ID"].filter
                      (fun c => !(c ∈ L.columns : Bool)))])) ∧
    (w.load "OUT_FeederCables.shp" = none →
      process_shapefilesCore w =
        (none, ["🔍 Processing shapefiles: feeder cables and closures",
                "⛔ Error: OUT_FeederCables.shp not found in " ++ w.path])) ∧
    (∀ F, w.load "OUT_FeederCables.shp" = some F → w.load "OUT_Closures.shp" = none →
      (process_shapefilesCore w).1 = none ∧
      ("⛔ Error: OUT_Closures.shp not found in " ++ w.path) ∈ (process_shapefilesCore w).2) ∧
    (∀ F C, w.load "OUT_FeederCables.shp" = some F → w.load "OUT_Closures.shp" = some C →
      ∀ c ∈ ["IDENTIFIER", "VIRTUAL"], c ∉ C.columns →
      (process_shapefilesCore w).1 = none ∧
      ("⛔ Error: Missing columns in closures: " ++
        String.intercalate ", "
          (["IDENTIFIER", "VIRTUAL"].filter (fun c => !(c ∈ C.columns : Bool)))) ∈
        (process_shapefilesCore w).2) ∧
    (w.load "OUT_Closures.shp" = none →
      report_splice_counts_by_closureCore w =
        (none, ["🔍 Reporting splices per closure type", "❌ Missing file: OUT_Closures.shp"])) ∧
    (∀ C, w.load "OUT_Closures.shp" = some C → w.load "OUT_Splices.shp" = none →
      report_splice_counts_by_closureCore w =
        (none, ["🔍 Reporting splices per closure type", "❌ Missing file: OUT_Splices.shp"])) ∧
    (w.load "OUT_FeederPoints.shp" = none →
      validate_feeder_primdistribution_locationsCore w =
        (none, ["\n🔍 Validating Feeder and Primary Distribution Point locations...",
                "⛔ Error: OUT_FeederPoints.shp not found"])) ∧
    (∀ F, w.load "OUT_FeederPoints.shp" = some F →
      w.load "OUT_PrimDistributionPoints.shp" = none →
      validate_feeder_primdistribution_locationsCore w =
        (none, ["\n🔍 Validating Feeder and Primary Distribution Point locations...",
                "⛔ Error: OUT_PrimDistributionPoints.shp not found"])) := by
  refine ⟨?_, ?_, ?_, ?_, ?_, ?_, ?_, ?_, ?_, ?_, ?_, ?_, ?_⟩
  · intro h
    simp [check_osc_duplicatesCore, h]
  · intro L hL hcol
    simp [check_osc_duplicatesCore, hL, hcol]
  · intro h
    simp [check_gistool_idCore, h]
  · intro L hL c hc hnotin
    have hne : (["TYPE", "GISTOOL_ID", "ID"].filter (fun c => !(c ∈ L.columns : Bool))) ≠ [] :=
      List.ne_nil_of_mem (List.mem_filter.mpr ⟨hc, by simpa using hnotin⟩)
    simp [check_gistool_idCore, hL, hne]
  · intro h
    simp [validate_non_virtual_closuresCore, h]
  · intro L hL c hc hnotin
    have hne : (["LAYER", "VIRTUAL", "EQ_ID"].filter (fun c => !(c ∈ L.columns : Bool))) ≠ [] :=
      List.ne_nil_of_mem (List.mem_filter.mpr ⟨hc, by simpa using hnotin⟩)
    simp [validate_non_virtual_closuresCore, hL, hne]
  · intro h
    simp [process_shapefilesCore, h]
  · intro F hF hC
    constructor
    · simp [process_shapefilesCore, hF, hC]
    · simp [process_shapefilesCore, hF, hC]
  · intro F C hF hC c hc hnotin
    have hne : (["IDENTIFIER", "VIRTUAL"].filter (fun c => !(c ∈ C.columns : Bool))) ≠ [] :=
      List.ne_nil_of_mem (List.mem_filter.mpr ⟨hc, by simpa using hnotin⟩)
    constructor
    · simp [process_shapefilesCore, hF, hC, hne]
    · simp [process_shapefilesCore, hF, hC, hne]
  · intro h
    simp [report_splice_counts_by_closureCore, h]
  · intro C hC hS
    simp [report_splice_counts_by_closureCore, hC, hS]
  · intro h
    simp [validate_feeder_primdistribution_locationsCore, h]
  · intro F hF hP
    simp [validate_feeder_primdistribution_locationsCore, hF, hP]

theorem single_layer_checks_missing_input_indeterminate_witness :
    check_osc_duplicatesCore wsEmpty =
      (none, ["⛔ Error: OUT_Closures.shp not found in workspace: " ++ wsEmpty.path]) :=
  (single_layer_checks_missing_input_indeterminate wsEmpty).1 rfl

/-- Counting `true` in a mapped Boolean mask is counting the predicate. -/
theorem count_true_map {α : Type} (l : List α) (f : α → Bool) :
    (l.map f).count true = l.countP f := by
  induction l with
  | nil => rfl
  | cons a t ih =>
    cases hfa : f a <;> simp [List.count_cons, List.countP_cons, hfa, ih]

/-- The duplicate mask fires on some row iff some column value occurs at
least twice. -/
theorem duplicatedMask_any (vs : List Value) :
    (duplicatedMask vs).any id = true ↔ ∃ v ∈ vs, 2 ≤ countVal vs v := by
  simp [duplicatedMask, List.any_map, List.any_eq_true, Function.comp]

/-- Shared duplicate-branch fact: when some `LINKED_AGG` value occurs at
least twice, the check returns status true and the message carries the
total count of rows with a repeated value. -/
theorem osc_dup_branch (w : Workspace) (L : Layer)
    (hL : w.load "OUT_Closures.shp" = some L)
    (hcol : "LINKED_AGG" ∈ L.columns)
    (hex : ∃ v ∈ L.col "LINKED_AGG", 2 ≤ countVal (L.col "LINKED_AGG") v) :
    (check_osc_duplicatesCore w).1 = some true ∧
    ("Total duplicated entries: " ++
      toString ((L.col "LINKED_AGG").countP
        (fun v => decide (2 ≤ countVal (L.col "LINKED_AGG") v)))) ∈
      (check_osc_duplicatesCore w).2 := by
  have hb : (duplicatedMask (L.col "LINKED_AGG")).any id = true :=
    (duplicatedMask_any _).mpr hex
  have hc : (duplicatedMask (L.col "LINKED_AGG")).count true =
      (L.col "LINKED_AGG").countP (fun v => decide (2 ≤ countVal (L.col "LINKED_AGG") v)) :=
    count_true_map _ _
  refine ⟨?_, ?_⟩
  · simp [check_osc_duplicatesCore, hL, hcol, hb]
  · rw [← hc]
    simp [check_osc_duplicatesCore, hL, hcol, hb]

/-- C5: OSC Duplicates returns status false exactly when no `LINKED_AGG`
value occurs in two or more rows; otherwise it returns status true and the
message reports as "Total duplicated entries" the number of rows whose
`LINKED_AGG` value occurs at least twice. -/
theorem osc_duplicates_iff (w : Workspace) (L : Layer)
    (hL : w.load "OUT_Closures.shp" = some L)
    (hcol : "LINKED_AGG" ∈ L.columns) :
    ((check_osc_duplicatesCore w).1 = some false ↔
      ∀ v ∈ L.col "LINKED_AGG", countVal (L.col "LINKED_AGG") v < 2) ∧
    ((∃ v ∈ L.col "LINKED_AGG", 2 ≤ countVal (L.col "LINKED_AGG") v) →
      (check_osc_duplicatesCore w).1 = some true ∧
      ("Total duplicated entries: " ++
        toString ((L.col "LINKED_AGG").countP
          (fun v => decide (2 ≤ countVal (L.col "LINKED_AGG") v)))) ∈
        (check_osc_duplicatesCore w).2) := by
  constructor
  · by_cases hb : (duplicatedMask (L.col "LINKED_AGG")).any id
    · obtain ⟨v, hv, h2⟩ := (duplicatedMask_any _).mp hb
      simp only [check_osc_duplicatesCore, hL, hcol, if_true, hb]
      constructor
      · intro hfalse
        exact absurd hfalse (by simp)
      · intro hall
        exact absurd (hall v hv) (by omega)
    · have hb' := hb
      rw [Bool.not_eq_true] at hb'
      simp only [check_osc_duplicatesCore, hL, hcol, if_true, hb', Bool.false_eq_true, if_false]
      constructor
      · intro _ v hv
        by_contra hge
        exact hb ((duplicatedMask_any _).mpr ⟨v, hv, by omega⟩)
      · intro _
        trivial
  · exact osc_dup_branch w L hL hcol

theorem osc_duplicates_iff_witness :
    (check_osc_duplicatesCore wsABA).1 = some true ∧
    "Total duplicated entries: 2" ∈ (check_osc_duplicatesCore wsABA).2 := by
  have h := (osc_duplicates_iff wsABA
      ⟨["LINKED_AGG"],
        [⟨[("LINKED_AGG", .str "A")], none⟩,
         ⟨[("LINKED_AGG", .str "B")], none⟩,
         ⟨[("LINKED_AGG", .str "A")], none⟩]⟩ rfl (by decide)).2
    ⟨.str "A", by decide, by decide⟩
  exact ⟨h.1, h.2⟩

/-- C9: `check_osc_duplicates` treats missing `LINKED_AGG` values as equal
to each other: with at least two null entries the check returns status
true, every null entry is regarded as duplicated, and the null rows are
included in the reported "Total duplicated entries" count. -/
theorem osc_duplicates_null_as_duplicates (w : Workspace) (L : Layer)
    (hL : w.load "OUT_Closures.shp" = some L)
    (hcol : "LINKED_AGG" ∈ L.columns)
    (hk : 2 ≤ countVal (L.col "LINKED_AGG") .null) :
    (check_osc_duplicatesCore w).1 = some true ∧
    (∀ v ∈ L.col "LINKED_AGG", v = .null →
      decide (2 ≤ countVal (L.col "LINKED_AGG") v) = true) ∧
    countVal (L.col "LINKED_AGG") .null ≤
      (L.col "LINKED_AGG").countP (fun v => decide (2 ≤ countVal (L.col "LINKED_AGG") v)) ∧
    ("Total duplicated entries: " ++
      toString ((L.col "LINKED_AGG").countP
        (fun v => decide (2 ≤ countVal (L.col "LINKED_AGG") v)))) ∈
      (check_osc_duplicatesCore w).2 := by
  have hnull : Value.null ∈ L.col "LINKED_AGG" := by
    have hpos : 0 < (L.col "LINKED_AGG").countP (fun x => decide (x = Value.null)) := by
      have := hk
      unfold countVal at this
      omega
    obtain ⟨v, hv, hp⟩ := List.countP_pos_iff.mp hpos
    have : v = Value.null := by simpa using hp
    rwa [this] at hv
  have h2 := osc_dup_branch w L hL hcol ⟨.null, hnull, hk⟩
  refine ⟨h2.1, ?_, ?_, h2.2⟩
  · intro v _ hv
    subst hv
    simpa using hk
  · unfold countVal
    apply List.countP_mono_left
    intro v hv hp
    have : v = Value.null := by simpa using hp
    subst this
    simpa using hk

theorem osc_duplicates_null_as_duplicates_witness :
    (check_osc_duplicatesCore wsNullAgg).1 = some true :=
  (osc_duplicates_null_as_duplicates wsNullAgg
    ⟨["LINKED_AGG"],
      [⟨[("LINKED_AGG", .null)], none⟩,
       ⟨[("LINKED_AGG", .str "B")], none⟩,
       ⟨[("LINKED_AGG", .null)], none⟩]⟩ rfl (by decide) (by decide)).1

/-- C6: with both point layers present and non-empty, Point Location
Validation returns status true exactly when the distance between the first
feeder point and the first prim-distribution point is strictly below the
(positive) tolerance — the squared form `distSq < tol * tol` is exactly
`distance < tol` for `tol > 0`; at squared distance exactly `tol * tol`
(distance exactly the tolerance) the status is false; if either layer has
zero features the status is null; a layer with feature count other than
one only adds a warning line, the verdict being determined by the first
points alone. The engine invokes the check at the default tolerance
`1/100` (0.01). -/
theorem point_location_verdict (w : Workspace) (F P : Layer) (tol : Rat)
    (hF : w.load "OUT_FeederPoints.shp" = some F)
    (hP : w.load "OUT_PrimDistributionPoints.shp" = some P)
    (htol : 0 < tol) :
    (∀ fr frs pr prs fx fy px py,
      F.rows = fr :: frs → P.rows = pr :: prs →
      fr.geom = some (.pt fx fy) → pr.geom = some (.pt px py) →
      ((validate_feeder_primdistribution_locationsCore w tol).1 = some true ↔
        distSq fx fy px py < tol * tol) ∧
      (distSq fx fy px py = tol * tol →
        (validate_feeder_primdistribution_locationsCore w tol).1 = some false) ∧
      (F.rows.length ≠ 1 →
        ("⚠️ Warning: OUT_FeederPoints.shp has " ++ toString F.rows.length ++
          " features (expected 1)") ∈ (validate_feeder_primdistribution_locationsCore w tol).2) ∧
      (P.rows.length ≠ 1 →
        ("⚠️ Warning: OUT_PrimDistributionPoints.shp has " ++ toString P.rows.length ++
          " features (expected 1)") ∈ (validate_feeder_primdistribution_locationsCore w tol).2)) ∧
    ((F.rows = [] ∨ P.rows = []) →
      (validate_feeder_primdistribution_locationsCore w tol).1 = none) := by
  constructor
  · intro fr frs pr prs fx fy px py hFr hPr hgf hgp
    refine ⟨?_, ?_, ?_, ?_⟩
    · by_cases hd : distSq fx fy px py < tol * tol
      · simp [validate_feeder_primdistribution_locationsCore, hF, hP, hFr, hPr, hgf, hgp,
          htol, hd]
      · simp [validate_feeder_primdistribution_locationsCore, hF, hP, hFr, hPr, hgf, hgp,
          htol, hd]
    · intro heq
      have hd : ¬distSq fx fy px py < tol * tol := by rw [heq]; exact lt_irrefl _
      simp [validate_feeder_primdistribution_locationsCore, hF, hP, hFr, hPr, hgf, hgp,
        htol, hd]
    · intro hlen
      have hfrs : ¬frs = [] := by
        intro h
        apply hlen
        rw [hFr, h]
        rfl
      by_cases hd : distSq fx fy px py < tol * tol <;>
        (simp [validate_feeder_primdistribution_locationsCore, hF, hP, hFr, hPr, hgf, hgp,
            htol, hd];
         exact Or.inr (Or.inl hfrs))
    · intro hlen
      have hprs : ¬prs = [] := by
        intro h
        apply hlen
        rw [hPr, h]
        rfl
      by_cases hd : distSq fx fy px py < tol * tol <;>
        (simp [validate_feeder_primdistribution_locationsCore, hF, hP, hFr, hPr, hgf, hgp,
            htol, hd];
         exact Or.inr (Or.inr (Or.inl hprs)))
  · intro h
    rcases h with h | h
    · simp [validate_feeder_primdistribution_locationsCore, hF, hP, h]
    · cases hFr : F.rows with
      | nil => simp [validate_feeder_primdistribution_locationsCore, hF, hP, hFr]
      | cons fr frs => simp [validate_feeder_primdistribution_locationsCore, hF, hP, h, hFr]

theorem point_location_verdict_witness :
    (validate_feeder_primdistribution_locationsCore wsPoints (mkRat 1 100)).1 = some false :=
  ((point_location_verdict wsPoints ⟨[], [⟨[], some (.pt 0 0)⟩]⟩
      ⟨[], [⟨[], some (.pt (mkRat 1 100) 0)⟩]⟩ (mkRat 1 100) rfl rfl (by norm_num)).1
    ⟨[], some (.pt 0 0)⟩ [] ⟨[], some (.pt (mkRat 1 100) 0)⟩ [] 0 0 (mkRat 1 100) 0
    rfl rfl rfl rfl).2.1 (by norm_num [distSq])

/-- When every present cable file that has the `DIAMETER` column contains
no bad row, the diameter file loop reports `has_issues = false` (missing
files or columns only flip the `any_errors` flag). -/
theorem diamLoop_ok (w : Workspace) (files : List String)
    (hok : ∀ f ∈ files, ∀ L, w.load f = some L → "DIAMETER" ∈ L.columns →
      ∀ r ∈ L.rows, badDiameter r = false) :
    ∃ errb ls, diamLoop w files = (some (false, errb), ls) := by
  induction files with
  | nil => exact ⟨false, [], rfl⟩
  | cons f rest ih =>
    obtain ⟨errb, ls, hrest⟩ := ih (fun g hg => hok g (List.mem_cons_of_mem _ hg))
    have hstep : ∃ err lines, diamFileStep w f = .ok (false, err, lines) := by
      cases hload : w.load f with
      | none =>
        refine ⟨true, ["⛔ Error: " ++ f ++ " not found in workspace"], ?_⟩
        simp [diamFileStep, hload]
      | some L =>
        by_cases hcol : "DIAMETER" ∈ L.columns
        · have hinv : L.rows.filter badDiameter = [] := by
            rw [List.filter_eq_nil_iff]
            intro r hr
            simp [hok f (List.mem_cons_self f rest) L hload hcol r hr]
          refine ⟨false, ["\n✅ " ++ f ++ ": All cables have valid diameters"], ?_⟩
          simp [diamFileStep, hload, hcol, hinv]
        · refine ⟨true, ["⛔ Error: " ++ f ++ " is missing DIAMETER column"], ?_⟩
          simp [diamFileStep, hload, hcol]
    obtain ⟨err, lines, hstep⟩ := hstep
    refine ⟨err || errb, lines ++ ls, ?_⟩
    simp [diamLoop, hstep, hrest]

/-- C10: the status of `validate_cable_diameters` reflects only data
violations in files it could examine — if some of the three cable files
are absent or lack `DIAMETER` while every present file that has the column
has no null-or-zero diameter row, the status is false (Pass), not null:
missing files and missing columns change only the message, never the
status. -/
theorem cable_diameters_status_ignores_missing_inputs (w : Workspace)
    (hmiss : ∃ f ∈ cable_diameter_files, w.load f = none ∨
      ∃ L, w.load f = some L ∧ "DIAMETER" ∉ L.columns)
    (hok : ∀ f ∈ cable_diameter_files, ∀ L, w.load f = some L →
      "DIAMETER" ∈ L.columns → ∀ r ∈ L.rows, badDiameter r = false) :
    (validate_cable_diameters w).1 = some false := by
  obtain ⟨errb, ls, hloop⟩ := diamLoop_ok w cable_diameter_files hok
  simp [validate_cable_diameters, validate_cable_diametersCore, hloop]

theorem cable_diameters_status_ignores_missing_inputs_witness :
    (validate_cable_diameters wsDiam).1 = some false := by
  apply cable_diameters_status_ignores_missing_inputs
  · exact ⟨"OUT_DistributionCables.shp", by decide, Or.inl rfl⟩
  · intro f hf L hload hcol r hr
    fin_cases hf
    · rw [show wsDiam.load "OUT_DistributionCables.shp" = none from rfl] at hload
      exact Option.noConfusion hload
    · rw [show wsDiam.load "OUT_FeederCables.shp" =
        some ⟨["CABLE_ID", "DIAMETER"],
          [⟨[("CABLE_ID", .num 1), ("DIAMETER", .num 12)], none⟩]⟩ from rfl] at hload
      injection hload with h
      subst h
      simp only [List.mem_singleton] at hr
      subst hr
      decide
    · rw [show wsDiam.load "OUT_PrimDistributionCables.shp" = none from rfl] at hload
      exact Option.noConfusion hload

/-- Whenever a tier's two loaded layers have the `CABLE_ID` column (or a
file is missing and the tier is skipped), the tier step succeeds and
reports exactly `tierIssueB`. -/
theorem cableRefsTier_any_ok (w : Workspace) (t : String)
    (hcols : ∀ Lc Lp, w.load ("OUT_" ++ t ++ "Cables.shp") = some Lc →
      w.load ("OUT_" ++ t ++ "CablePieces.shp") = some Lp →
      "CABLE_ID" ∈ Lc.columns ∧ "CABLE_ID" ∈ Lp.columns) :
    ∃ lines, cableRefsTier w t = .ok (tierIssueB w t, lines) := by
  cases hc : w.load ("OUT_" ++ t ++ "Cables.shp") with
  | none =>
    have hti : tierIssueB w t = false := by simp [tierIssueB, hc]
    refine ⟨["⚠️ Cable file missing: " ++ ("OUT_" ++ t ++ "Cables.shp")], ?_⟩
    rw [hti]
    simp [cableRefsTier, hc]
  | some Lc =>
    cases hp : w.load ("OUT_" ++ t ++ "CablePieces.shp") with
    | none =>
      have hti : tierIssueB w t = false := by simp [tierIssueB, hc, hp]
      refine ⟨["⚠️ Cable piece file missing: " ++ ("OUT_" ++ t ++ "CablePieces.shp")], ?_⟩
      rw [hti]
      simp [cableRefsTier, hc, hp]
    | some Lp =>
      obtain ⟨hcc, hpc⟩ := hcols Lc Lp hc hp
      by_cases hinv : (Lp.rows.filter
          (fun r => !(decide (r.get "CABLE_ID" ∈ Lc.col "CABLE_ID")))).isEmpty
      · have hti : tierIssueB w t = false := by simp [tierIssueB, hc, hp, hinv]
        refine ⟨["✅ " ++ t ++ "CablePieces: All CABLE_IDs are valid.", dashLine], ?_⟩
        rw [hti]
        simp [cableRefsTier, hc, hp, hcc, hpc, hinv]
      · have hinv' : (Lp.rows.filter
            (fun r => !(decide (r.get "CABLE_ID" ∈ Lc.col "CABLE_ID")))).isEmpty = false := by
          cases hie : (Lp.rows.filter
              (fun r => !(decide (r.get "CABLE_ID" ∈ Lc.col "CABLE_ID")))).isEmpty
          · rfl
          · exact absurd hie hinv
        have hti : tierIssueB w t = true := by simp [tierIssueB, hc, hp, hinv']
        refine ⟨["❌ " ++ t ++ "CablePieces: Found " ++ toString (Lp.rows.filter
              (fun r => !(decide (r.get "CABLE_ID" ∈ Lc.col "CABLE_ID")))).length ++
             " pieces with " ++ toString (uniqueVals ((Lp.rows.filter
              (fun r => !(decide (r.get "CABLE_ID" ∈ Lc.col "CABLE_ID")))).map
                (fun r => r.get "CABLE_ID"))).length ++ " invalid CableIDs",
           "Invalid CableIDs: " ++ String.intercalate ", "
             (((uniqueVals ((Lp.rows.filter
                 (fun r => !(decide (r.get "CABLE_ID" ∈ Lc.col "CABLE_ID")))).map
                   (fun r => r.get "CABLE_ID"))).take 10).map Value.strOf)] ++
          (if 10 < (uniqueVals ((Lp.rows.filter
              (fun r => !(decide (r.get "CABLE_ID" ∈ Lc.col "CABLE_ID")))).map
                (fun r => r.get "CABLE_ID"))).length then
            ["Showing first 10 of " ++ toString (uniqueVals ((Lp.rows.filter
                (fun r => !(decide (r.get "CABLE_ID" ∈ Lc.col "CABLE_ID")))).map
                  (fun r => r.get "CABLE_ID"))).length ++ " invalid IDs"]
           else []) ++ [dashLine], ?_⟩
        rw [hti]
        simp [cableRefsTier, hc, hp, hcc, hpc, hinv']

/-- When every tier step succeeds, the tier loop's status is the
disjunction of the tiers' issue flags, and every succeeding tier's output
lines appear in the loop's output. -/
theorem cableRefsLoop_ok (w : Workspace) (tiers : List String)
    (h : ∀ t ∈ tiers, ∃ lines, cableRefsTier w t = .ok (tierIssueB w t, lines)) :
    (cableRefsLoop w tiers).1 = some (tiers.any (tierIssueB w)) ∧
    (∀ t ∈ tiers, ∀ i lines, cableRefsTier w t = .ok (i, lines) →
      ∀ x ∈ lines, x ∈ (cableRefsLoop w tiers).2) := by
  induction tiers with
  | nil => exact ⟨rfl, by simp⟩
  | cons t rest ih =>
    obtain ⟨lines, ht⟩ := h t (List.mem_cons_self t rest)
    obtain ⟨ih1, ih2⟩ := ih (fun g hg => h g (List.mem_cons_of_mem _ hg))
    obtain ⟨ls, hls⟩ : ∃ ls, cableRefsLoop w rest = (some (rest.any (tierIssueB w)), ls) :=
      ⟨(cableRefsLoop w rest).2, by rw [← ih1]⟩
    constructor
    · simp [cableRefsLoop, ht, hls, List.any_cons]
    · intro t' ht' i lines' hstep x hx
      rcases List.mem_cons.mp ht' with heq | hmem
      · subst heq
        rw [ht] at hstep
        have hl : lines = lines' := by
          injection hstep with hstep
          exact ((Prod.mk.injEq _ _ _ _).mp hstep).2
        subst hl
        simp [cableRefsLoop, ht, hls]
        exact Or.inl hx
      · have hxin := ih2 t' hmem i lines' hstep x hx
        rw [hls] at hxin
        simp [cableRefsLoop, ht, hls]
        exact Or.inr hxin

/-- Counterexample to C4 as stated: in `wsRefsCex` the Feeder tier (both
files present) has an unmatched `CABLE_ID`, yet the overall status is null
rather than true, because the Drop cable layer (also present, with its
piece file) lacks the `CABLE_ID` column and the check ends in its `except`
clause. -/
theorem cable_refs_keyerror_masks_invalid_ref :
    tierIssueB wsRefsCex "Feeder" = true ∧
    (check_invalid_cable_refs wsRefsCex).1 = none := by decide

/-- C4 (amended): provided every tier whose cable and cable-piece files
both exist has the `CABLE_ID` column in both layers, Cable Reference
Validation reports a tier valid exactly when every piece's `CABLE_ID` is
among the cable layer's `CABLE_ID` values; if at least one examined tier
has an unmatched `CABLE_ID` the overall status is true and the message
lists the tier's invalid IDs (at most 10 distinct ones); if every examined
tier is valid the status is false. -/
theorem cable_refs_per_tier_validity (w : Workspace)
    (hcols : ∀ t ∈ cable_types, ∀ Lc Lp,
      w.load ("OUT_" ++ t ++ "Cables.shp") = some Lc →
      w.load ("OUT_" ++ t ++ "CablePieces.shp") = some Lp →
      "CABLE_ID" ∈ Lc.columns ∧ "CABLE_ID" ∈ Lp.columns) :
    (∀ t ∈ cable_types, ∀ Lc Lp,
      w.load ("OUT_" ++ t ++ "Cables.shp") = some Lc →
      w.load ("OUT_" ++ t ++ "CablePieces.shp") = some Lp →
      (tierIssueB w t = false ↔ ∀ r ∈ Lp.rows, r.get "CABLE_ID" ∈ Lc.col "CABLE_ID")) ∧
    ((∃ t ∈ cable_types, tierIssueB w t = true) →
      (check_invalid_cable_refsCore w).1 = some true) ∧
    (∀ t ∈ cable_types, ∀ Lc Lp,
      w.load ("OUT_" ++ t ++ "Cables.shp") = some Lc →
      w.load ("OUT_" ++ t ++ "CablePieces.shp") = some Lp →
      (Lp.rows.filter (fun r => !(decide (r.get "CABLE_ID" ∈ Lc.col "CABLE_ID")))) ≠ [] →
      ("Invalid CableIDs: " ++ String.intercalate ", "
        (((uniqueVals ((Lp.rows.filter
            (fun r => !(decide (r.get "CABLE_ID" ∈ Lc.col "CABLE_ID")))).map
              (fun r => r.get "CABLE_ID"))).take 10).map Value.strOf)) ∈
        (check_invalid_cable_refsCore w).2) ∧
    ((∀ t ∈ cable_types, tierIssueB w t = false) →
      (check_invalid_cable_refsCore w).1 = some false) := by
  have hsteps : ∀ t ∈ cable_types, ∃ lines,
      cableRefsTier w t = .ok (tierIssueB w t, lines) :=
    fun t ht => cableRefsTier_any_ok w t (hcols t ht)
  obtain ⟨hstat, hmem⟩ := cableRefsLoop_ok w cable_types hsteps
  have hcore1 : (check_invalid_cable_refsCore w).1 = (cableRefsLoop w cable_types).1 := rfl
  refine ⟨?_, ?_, ?_, ?_⟩
  · intro t _ Lc Lp hc hp
    simp [tierIssueB, hc, hp, List.isEmpty_eq_false, List.filter_eq_nil_iff]
  · intro ⟨t, ht, hissue⟩
    have hany : cable_types.any (tierIssueB w) = true :=
      List.any_eq_true.mpr ⟨t, ht, hissue⟩
    rw [hcore1, hstat, hany]
  · intro t ht Lc Lp hc hp hne
    obtain ⟨hcc, hpc⟩ := hcols t ht Lc Lp hc hp
    have hinv' : (Lp.rows.filter
        (fun r => !(decide (r.get "CABLE_ID" ∈ Lc.col "CABLE_ID")))).isEmpty = false :=
      List.isEmpty_eq_false.mpr hne
    have hstep : cableRefsTier w t = .ok (true,
        ["❌ " ++ t ++ "CablePieces: Found " ++ toString (Lp.rows.filter
            (fun r => !(decide (r.get "CABLE_ID" ∈ Lc.col "CABLE_ID")))).length ++
           " pieces with " ++ toString (uniqueVals ((Lp.rows.filter
            (fun r => !(decide (r.get "CABLE_ID" ∈ Lc.col "CABLE_ID")))).map
              (fun r => r.get "CABLE_ID"))).length ++ " invalid CableIDs",
         "Invalid CableIDs: " ++ String.intercalate ", "
           (((uniqueVals ((Lp.rows.filter
               (fun r => !(decide (r.get "CABLE_ID" ∈ Lc.col "CABLE_ID")))).map
                 (fun r => r.get "CABLE_ID"))).take 10).map Value.strOf)] ++
        (if 10 < (uniqueVals ((Lp.rows.filter
            (fun r => !(decide (r.get "CABLE_ID" ∈ Lc.col "CABLE_ID")))).map
              (fun r => r.get "CABLE_ID"))).length then
          ["Showing first 10 of " ++ toString (uniqueVals ((Lp.rows.filter
              (fun r => !(decide (r.get "CABLE_ID" ∈ Lc.col "CABLE_ID")))).map
                (fun r => r.get "CABLE_ID"))).length ++ " invalid IDs"]
         else []) ++ [dashLine]) := by
      simp [cableRefsTier, hc, hp, hcc, hpc, hinv']
    have hx := hmem t ht _ _ hstep
      ("Invalid CableIDs: " ++ String.intercalate ", "
        (((uniqueVals ((Lp.rows.filter
            (fun r => !(decide (r.get "CABLE_ID" ∈ Lc.col "CABLE_ID")))).map
              (fun r => r.get "CABLE_ID"))).take 10).map Value.strOf))
      (List.mem_append_left _ (List.mem_cons_of_mem _ (List.mem_cons_self _ _)))
    exact List.mem_cons_of_mem _ hx
  · intro hall
    have hany : cable_types.any (tierIssueB w) = false := by
      rw [List.any_eq_false]
      intro t ht
      simp [hall t ht]
    rw [hcore1, hstat, hany]

theorem cable_refs_per_tier_validity_witness :
    (check_invalid_cable_refsCore wsRefsOk).1 = some true := by
  have hcols : ∀ t ∈ cable_types, ∀ Lc Lp,
      wsRefsOk.load ("OUT_" ++ t ++ "Cables.shp") = some Lc →
      wsRefsOk.load ("OUT_" ++ t ++ "CablePieces.shp") = some Lp →
      "CABLE_ID" ∈ Lc.columns ∧ "CABLE_ID" ∈ Lp.columns := by
    intro t ht Lc Lp hc hp
    fin_cases ht
    · rw [show wsRefsOk.load ("OUT_" ++ "Feeder" ++ "Cables.shp") =
        some ⟨["CABLE_ID"],
          [⟨[("CABLE_ID", .num 1)], none⟩, ⟨[("CABLE_ID", .num 2)], none⟩]⟩ from rfl] at hc
      rw [show wsRefsOk.load ("OUT_" ++ "Feeder" ++ "CablePieces.shp") =
        some ⟨["CABLE_ID"],
          [⟨[("CABLE_ID", .num 1)], none⟩, ⟨[("CABLE_ID", .num 2)], none⟩,
           ⟨[("CABLE_ID", .num 3)], none⟩]⟩ from rfl] at hp
      injection hc with hc
      injection hp with hp
      subst hc
      subst hp
      exact ⟨by decide, by decide⟩
    · rw [show wsRefsOk.load ("OUT_" ++ "Drop" ++ "Cables.shp") = none from rfl] at hc
      exact Option.noConfusion hc
    · rw [show wsRefsOk.load ("OUT_" ++ "PrimDistribution" ++ "Cables.shp") = none
        from rfl] at hc
      exact Option.noConfusion hc
    · rw [show wsRefsOk.load ("OUT_" ++ "Distribution" ++ "Cables.shp") = none
        from rfl] at hc
      exact Option.noConfusion hc
  exact (cable_refs_per_tier_validity wsRefsOk hcols).2.1 ⟨"Feeder", by decide, by decide⟩

/-- Membership characterization of the overlap-pair list: exactly the
index pairs `i < j` (within bounds) whose geometries intersect. -/
theorem mem_overlapPairs (gs : List Geom) (p : Nat × Nat) :
    p ∈ overlapPairs gs ↔
      p.1 < p.2 ∧ p.2 < gs.length ∧
        (gs.getD p.1 default).intersects (gs.getD p.2 default) = true := by
  cases p with
  | mk a b =>
    simp only [overlapPairs, queryIntersects, List.mem_flatMap, List.mem_map,
      List.mem_filter, List.mem_range, Bool.and_eq_true, decide_eq_true_eq,
      Prod.mk.injEq]
    constructor
    · rintro ⟨idx, hidx, j, ⟨⟨hj, _⟩, hlt, hint⟩, h1, h2⟩
      subst h1
      subst h2
      exact ⟨hlt, hj, hint⟩
    · rintro ⟨hab, hb, hint⟩
      exact ⟨a, lt_trans hab hb, b, ⟨⟨hb, hint⟩, hab, hint⟩, rfl, rfl⟩

/-- The overlap-pair list has no duplicates: each unordered pair is
counted exactly once. -/
theorem overlapPairs_nodup (gs : List Geom) : (overlapPairs gs).Nodup := by
  unfold overlapPairs queryIntersects
  rw [List.nodup_flatMap]
  constructor
  · intro idx _
    apply List.Nodup.map
    · intro x y hxy
      exact ((Prod.mk.injEq _ _ _ _).mp hxy).2
    · exact ((List.nodup_range _).filter _).filter _
  · apply (List.pairwise_lt_range _).imp
    intro a b hab
    rw [Function.onFun, List.disjoint_left]
    rintro x hxa hxb
    obtain ⟨_, _, h1⟩ := List.mem_map.mp hxa
    obtain ⟨_, _, h2⟩ := List.mem_map.mp hxb
    rw [← h2] at h1
    exact absurd (((Prod.mk.injEq _ _ _ _).mp h1).1) (Nat.ne_of_lt hab)

/-- The reported overlap count is the number of index pairs `i < j` with
intersecting geometries. -/
theorem overlapPairs_length (gs : List Geom) :
    (overlapPairs gs).length =
      ((Finset.range gs.length ×ˢ Finset.range gs.length).filter
        (fun p => p.1 < p.2 ∧
          (gs.getD p.1 default).intersects (gs.getD p.2 default) = true)).card := by
  rw [← List.toFinset_card_of_nodup (overlapPairs_nodup gs)]
  congr 1
  ext p
  simp only [List.mem_toFinset, mem_overlapPairs, Finset.mem_filter, Finset.mem_product,
    Finset.mem_range]
  constructor
  · rintro ⟨h1, h2, h3⟩
    exact ⟨⟨lt_trans h1 h2, h2⟩, h1, h3⟩
  · rintro ⟨⟨_, h2⟩, h1, h3⟩
    exact ⟨h1, h2, h3⟩

/-- If some present cluster file has an overlap, the per-file loop reports
an issue. -/
theorem clusterLoop_true (w : Workspace) (files : List String) (file : String) (L : Layer)
    (hfile : file ∈ files) (hload : w.load file = some L)
    (hover : overlapPairs ((L.rows.filter (fun r => r.geom.isSome)).filterMap
      (fun r => r.geom)) ≠ []) :
    (clusterLoop w files).1 = true := by
  induction files with
  | nil => cases hfile
  | cons f rest ih =>
    rcases List.mem_cons.mp hfile with heq | hmem
    · subst heq
      have hie : (overlapPairs ((L.rows.filter (fun r => r.geom.isSome)).filterMap
          (fun r => r.geom))).isEmpty = false := List.isEmpty_eq_false.mpr hover
      simp [clusterLoop, hload, hie]
    · have hrest := ih hmem
      cases hl : w.load f with
      | none => simp [clusterLoop, hl, hrest]
      | some gdf =>
        by_cases hie : (overlapPairs ((gdf.rows.filter (fun r => r.geom.isSome)).filterMap
            (fun r => r.geom))).isEmpty
        · simp [clusterLoop, hl, hie, hrest]
        · simp [clusterLoop, hl, hie]

/-- C7: per cluster layer, the overlap count reported by the check equals
the number of unordered pairs of distinct features with non-null,
intersecting geometries (formalized as pairs `i < j`, legitimate because
`Geom.intersects` is symmetric, second conjunct); self-pairs are never
counted and a layer with no two intersecting geometries contributes no
overlap; and a present cluster layer containing two intersecting
geometries makes the check return status true with overlap count at least
one. -/
theorem cluster_overlap_count_correct :
    (∀ gs : List Geom,
      (overlapPairs gs).length =
        ((Finset.range gs.length ×ˢ Finset.range gs.length).filter
          (fun p => p.1 < p.2 ∧
            (gs.getD p.1 default).intersects (gs.getD p.2 default) = true)).card) ∧
    (∀ a b : Geom, a.intersects b = b.intersects a) ∧
    (∀ gs : List Geom,
      (∀ i j, i < j → j < gs.length →
        (gs.getD i default).intersects (gs.getD j default) = false) →
      overlapPairs gs = []) ∧
    (∀ (w : Workspace) (file : String) (L : Layer),
      file ∈ cluster_files_default → w.load file = some L →
      (∃ i j, i < j ∧ j < ((L.rows.filter (fun r => r.geom.isSome)).filterMap
          (fun r => r.geom)).length ∧
        Geom.intersects
          (((L.rows.filter (fun r : Row => r.geom.isSome)).filterMap
            (fun r : Row => r.geom)).getD i default)
          (((L.rows.filter (fun r : Row => r.geom.isSome)).filterMap
            (fun r : Row => r.geom)).getD j default) = true) →
      (check_cluster_overlapsCore w).1 = some true ∧
      1 ≤ (overlapPairs ((L.rows.filter (fun r => r.geom.isSome)).filterMap
          (fun r => r.geom))).length) := by
  refine ⟨overlapPairs_length, Geom.intersects_comm, ?_, ?_⟩
  · intro gs h
    rw [List.eq_nil_iff_forall_not_mem]
    intro p hp
    obtain ⟨h1, h2, h3⟩ := (mem_overlapPairs gs p).mp hp
    rw [h p.1 p.2 h1 h2] at h3
    exact Bool.false_ne_true h3
  · intro w file L hfile hload ⟨i, j, hij, hj, hint⟩
    have hmem : (i, j) ∈ overlapPairs ((L.rows.filter (fun r => r.geom.isSome)).filterMap
        (fun r => r.geom)) :=
      (mem_overlapPairs _ _).mpr ⟨hij, hj, hint⟩
    have hne : overlapPairs ((L.rows.filter (fun r => r.geom.isSome)).filterMap
        (fun r => r.geom)) ≠ [] := List.ne_nil_of_mem hmem
    constructor
    · have hcore : (check_cluster_overlapsCore w).1 =
          some (clusterLoop w cluster_files_default).1 := rfl
      rw [hcore, clusterLoop_true w cluster_files_default file L hfile hload hne]
    · exact List.length_pos.mpr hne

theorem cluster_overlap_count_correct_witness :
    (check_cluster_overlapsCore wsOverlap).1 = some true := by
  have h := cluster_overlap_count_correct.2.2.2 wsOverlap "OUT_DropClusters.shp"
    ⟨["AGG_ID"],
      [⟨[("AGG_ID", .num 1)], some (.box 0 0 2 2)⟩,
       ⟨[("AGG_ID", .num 2)], some (.box 1 1 3 3)⟩,
       ⟨[("AGG_ID", .num 3)], some (.box 10 10 11 11)⟩]⟩
    (by decide) rfl ⟨0, 1, by decide, by decide, by decide⟩
  exact h.1

/-- Counterexample to C3 as stated: in `wsSpliceCex` both
`OUT_Closures.shp` and `OUT_Splices.shp` exist, yet the Splice Count
Report returns status null (the splices layer lacks the `ID` column and
the check ends in its `except` clause), not the claimed unconditional
false. -/
theorem splice_report_missing_column_yields_null :
    (wsSpliceCex.load "OUT_Closures.shp").isSome = true ∧
    (wsSpliceCex.load "OUT_Splices.shp").isSome = true ∧
    (report_splice_counts_by_closure wsSpliceCex).1 = none := by decide

/-- Under distinct string forms of the distinct splice `ID` values, the
string-keyed filter of `value_counts` for a given key is empty (and then
no splice row matches) or a single entry carrying the full match count. -/
theorem spliceMatched_char (vals : List Value) (t : String)
    (hnd : (((vals.filter (fun v => !v.isna)).dedup).map Value.strOf).Nodup) :
    ((valueCountsPairs vals).filter (fun kv => kv.1.strOf == t) = [] ∧
      vals.countP (fun v => !v.isna && (v.strOf == t)) = 0) ∨
    (∃ k, (valueCountsPairs vals).filter (fun kv => kv.1.strOf == t) =
        [(k, countVal vals k)] ∧
      vals.countP (fun v => !v.isna && (v.strOf == t)) = countVal vals k) := by
  have hinj : ∀ x ∈ (vals.filter (fun v => !v.isna)).dedup,
      ∀ y ∈ (vals.filter (fun v => !v.isna)).dedup, x.strOf = y.strOf → x = y :=
    List.inj_on_of_nodup_map hnd
  cases hm : (valueCountsPairs vals).filter (fun kv => kv.1.strOf == t) with
  | nil =>
    left
    refine ⟨rfl, ?_⟩
    rw [List.countP_eq_zero]
    intro v hv hpred
    simp only [Bool.and_eq_true, Bool.not_eq_true', beq_iff_eq] at hpred
    obtain ⟨hnn, hstr⟩ := hpred
    have hvk : v ∈ (vals.filter (fun v => !v.isna)).dedup :=
      List.mem_dedup.mpr (List.mem_filter.mpr ⟨hv, by simp [hnn]⟩)
    have hvf : (v, countVal vals v) ∈
        (valueCountsPairs vals).filter (fun kv => kv.1.strOf == t) := by
      rw [List.mem_filter]
      exact ⟨List.mem_map.mpr ⟨v, hvk, rfl⟩, by simp [hstr]⟩
    rw [hm] at hvf
    cases hvf
  | cons hd tl =>
    right
    have hhd : hd ∈ (valueCountsPairs vals).filter (fun kv => kv.1.strOf == t) := by
      rw [hm]
      exact List.mem_cons_self _ _
    obtain ⟨hhd_vcp, hhd_pred⟩ := List.mem_filter.mp hhd
    obtain ⟨k, hk_keys, hk_eq⟩ := List.mem_map.mp hhd_vcp
    have hkt : k.strOf = t := by
      rw [← hk_eq] at hhd_pred
      simpa using hhd_pred
    have hknn : (!k.isna) = true :=
      (List.mem_filter.mp (List.mem_dedup.mp hk_keys)).2
    have hmapnd : (((valueCountsPairs vals).filter
        (fun kv => kv.1.strOf == t)).map (fun kv => kv.1.strOf)).Nodup := by
      have hvcpmap : (valueCountsPairs vals).map (fun kv => kv.1.strOf) =
          ((vals.filter (fun v => !v.isna)).dedup).map Value.strOf := by
        unfold valueCountsPairs
        rw [List.map_map]
        rfl
      exact ((List.filter_sublist _).map _).nodup (hvcpmap ▸ hnd)
    have htl : tl = [] := by
      cases htl : tl with
      | nil => rfl
      | cons x tl' =>
        exfalso
        have hx : x ∈ (valueCountsPairs vals).filter (fun kv => kv.1.strOf == t) := by
          rw [hm, htl]
          exact List.mem_cons_of_mem _ (List.mem_cons_self _ _)
        have hxt : x.1.strOf = t := by simpa using (List.mem_filter.mp hx).2
        have hhdt : hd.1.strOf = t := by simpa using hhd_pred
        rw [hm, htl] at hmapnd
        simp only [List.map_cons, List.nodup_cons, List.mem_cons, List.mem_map] at hmapnd
        exact hmapnd.1 (Or.inl (by rw [hhdt, hxt]))
    refine ⟨k, ?_, ?_⟩
    · rw [htl, ← hk_eq]
    · have hcongr : vals.countP (fun v => !v.isna && (v.strOf == t)) =
          vals.countP (fun x => decide (x = k)) := by
        apply List.countP_congr
        intro v hv
        simp only [Bool.and_eq_true, beq_iff_eq, decide_eq_true_eq]
        constructor
        · rintro ⟨hnn, hstr⟩
          have hvk : v ∈ (vals.filter (fun v => !v.isna)).dedup :=
            List.mem_dedup.mpr (List.mem_filter.mpr ⟨hv, hnn⟩)
          exact hinj v hvk k hk_keys (by rw [hstr, hkt])
        · rintro rfl
          exact ⟨hknn, hkt⟩
      rw [hcongr]
      rfl

/-- Generic: a flat-map whose pieces are singletons is a map. -/
theorem flatMap_singleton_eq_map {α β : Type} (l : List α) (f : α → List β) (g : α → β)
    (h : ∀ a ∈ l, f a = [g a]) : l.flatMap f = l.map g := by
  induction l with
  | nil => rfl
  | cons a s ih =>
    rw [List.flatMap_cons, h a (List.mem_cons_self a s),
      ih (fun b hb => h b (List.mem_cons_of_mem _ hb))]
    rfl

/-- Under distinct string forms of the splice `ID` values, the merged
report has exactly one row per closure row, carrying the claim's splice
count. -/
theorem spliceReportRows_eq (C S : Layer)
    (hnd : ((((S.col "ID").filter (fun v => !v.isna)).dedup).map Value.strOf).Nodup) :
    spliceReportRows C S = C.rows.map (fun r =>
      (r.get "IDENTIFIER", (r.get "ID").strOf,
        spliceMatchCount S ((r.get "ID").strOf))) := by
  unfold spliceReportRows
  apply flatMap_singleton_eq_map
  intro r _
  rcases spliceMatched_char (S.col "ID") ((r.get "ID").strOf) hnd with
    ⟨hm, hc⟩ | ⟨k, hm, hc⟩
  · simp [hm, hc, spliceMatchCount]
  · simp [hm, hc, spliceMatchCount]

/-- Refinement: the check's `problematic_closures` list equals the
claim-side list built from each closure's limit and match count. -/
theorem spliceProblematic_eq_spec (C S : Layer)
    (hnd : ((((S.col "ID").filter (fun v => !v.isna)).dedup).map Value.strOf).Nodup) :
    spliceProblematic C S = spliceProblematicSpec C S := by
  unfold spliceProblematic spliceProblematicSpec
  rw [spliceReportRows_eq C S hnd, List.filterMap_map]
  congr 1
  funext r
  simp only [Function.comp_apply]
  cases hident : r.get "IDENTIFIER" with
  | null => simp [spliceLimitOf]
  | num q => simp [spliceLimitOf]
  | str s =>
    simp only [spliceLimitOf]
    cases hfind : (MAX_SPLICE_LIMITS.find? (fun p => p.1 == s)).map (fun p => p.2) with
    | none => rfl
    | some lim => rfl

/-- C3 (amended): whenever both `OUT_Closures.shp` and `OUT_Splices.shp`
exist, the required columns are present (closures `IDENTIFIER` and `ID`,
splices `ID`), and distinct splice `ID` values stay distinct as strings,
the Splice Count Report returns status false — never true or null — even
when closures exceed their limits; and a closure row is listed in the
message exactly when its `IDENTIFIER` is one of the six limited types and
its splice count (the number of `OUT_Splices` rows whose `ID` matches the
closure's `ID` as strings) strictly exceeds that limit, closures of
unlimited types never being flagged (the `spliceProblematicSpec`
refinement). -/
theorem splice_report_status_and_listing (w : Workspace) (C S : Layer)
    (hC : w.load "OUT_Closures.shp" = some C)
    (hS : w.load "OUT_Splices.shp" = some S)
    (hidS : "ID" ∈ S.columns) (hidC : "ID" ∈ C.columns)
    (hident : "IDENTIFIER" ∈ C.columns)
    (hnd : ((((S.col "ID").filter (fun v => !v.isna)).dedup).map Value.strOf).Nodup) :
    (report_splice_counts_by_closureCore w).1 = some false ∧
    spliceProblematic C S = spliceProblematicSpec C S ∧
    (∀ e ∈ spliceProblematic C S,
      (padRight e.1 30 ++ " " ++ padRight e.2.1 20 ++ " " ++
        padRight (toString e.2.2.1) 10 ++ " " ++
        "This closure exceeds the maximum number of splices which is " ++
        toString e.2.2.2) ∈ (report_splice_counts_by_closureCore w).2) := by
  refine ⟨?_, spliceProblematic_eq_spec C S hnd, ?_⟩
  · by_cases hp : (spliceProblematic C S).isEmpty
    · simp [report_splice_counts_by_closureCore, hC, hS, hidS, hidC, hident, hp]
    · simp [report_splice_counts_by_closureCore, hC, hS, hidS, hidC, hident, hp]
  · intro e he
    have hne : (spliceProblematic C S).isEmpty = false :=
      List.isEmpty_eq_false.mpr (List.ne_nil_of_mem he)
    have h2 : (report_splice_counts_by_closureCore w).2 =
        ["🔍 Reporting splices per closure type",
         padRight "Closure Type" 30 ++ " " ++ padRight "Closure ID" 20 ++ " " ++
           padRight "# Splices" 10 ++ " " ++ "Message",
         String.mk (List.replicate 100 '-')] ++
        (spliceProblematic C S).map (fun c =>
          padRight c.1 30 ++ " " ++ padRight c.2.1 20 ++ " " ++
            padRight (toString c.2.2.1) 10 ++ " " ++
            "This closure exceeds the maximum number of splices which is " ++
            toString c.2.2.2) ++
        ["\n❌ Found " ++ toString (spliceProblematic C S).length ++
           " closure(s) exceeding splice limits."] := by
      simp [report_splice_counts_by_closureCore, hC, hS, hidS, hidC, hident, hne]
    rw [h2]
    exact List.mem_append_left _
      (List.mem_append_right _ (List.mem_map.mpr ⟨e, he, rfl⟩))

theorem splice_report_status_and_listing_witness :
    (report_splice_counts_by_closureCore wsSpliceOk).1 = some false := by
  exact (splice_report_status_and_listing wsSpliceOk
    ⟨["IDENTIFIER", "ID"],
      [⟨[("IDENTIFIER", .str "BE16"), ("ID", .num 1)], none⟩,
       ⟨[("IDENTIFIER", .str "POC_UG_1-8HP"), ("ID", .num 2)], none⟩]⟩
    ⟨["ID"],
      [⟨[("ID", .num 1)], none⟩, ⟨[("ID", .num 1)], none⟩, ⟨[("ID", .num 2)], none⟩,
       ⟨[("ID", .num 2)], none⟩, ⟨[("ID", .num 2)], none⟩, ⟨[("ID", .num 2)], none⟩,
       ⟨[("ID", .num 2)], none⟩, ⟨[("ID", .num 2)], none⟩, ⟨[("ID", .num 2)], none⟩,
       ⟨[("ID", .num 2)], none⟩, ⟨[("ID", .num 2)], none⟩]⟩
    rfl rfl (by decide) (by decide) (by decide) (by decide)).1
